import Mathlib

/-!
# Formal model of the website-monitoring bot (checks, storage, config, notifications)

A shallow embedding, in Lean 4, of the monitoring core of the
`website-monitoring-bot` repository: the threshold bucketing algorithm and the
per-site check cycle (`modules/notifications.py`), the URL validator and HTTP
probe (`modules/checks.py`), the per-owner site registry (`modules/storage.py`)
and the configuration loader (`modules/config.py`).

Python library calls (`urllib.parse`, `idna`, `ipaddress`, `json`, `re`,
`tenacity`) are modelled by explicit Lean functions whose behaviour follows the
library semantics on the inputs the program can reach; each such model carries a
doc comment stating its scope.  Machine-independent data (strings, integer
day counts, JSON trees) is represented directly; time is represented as an
integer number of seconds.
-/

namespace SiteBot

/-! ## Threshold bucketing (`modules/notifications.py`, `get_nearest_threshold`)

Python's `sorted(thresholds, reverse=True)` is a descending sort; stability is
irrelevant here because the sorted values are bare integers.  We model it with
insertion sort. -/

/-- One insertion step of a descending insertion sort: `x` is placed before the
first element strictly smaller than it. -/
def insertDesc (x : Int) : List Int → List Int
  | [] => [x]
  | y :: ys => if y < x then x :: y :: ys else y :: insertDesc x ys

/-- Model of `sorted(thresholds, reverse=True)`. -/
def sortDesc (l : List Int) : List Int := l.foldr insertDesc []

/-- `get_nearest_threshold(days_left, thresholds)` (notifications.py:57-77):
walk the thresholds in descending sorted order and return the first `t` with
`days_left <= t`; `None` when no threshold qualifies. -/
def get_nearest_threshold (daysLeft : Int) (thresholds : List Int) : Option Int :=
  (sortDesc thresholds).find? (fun t => decide (daysLeft ≤ t))

/-! ## Python string primitives

Strings are handled as `List Char`; `String` appears only at the outer
boundaries.  These helpers model the CPython `str` methods actually used by the
repository (`split`, `strip`, `int(...)`, membership tests). -/

/-- Python whitespace for `str.strip()` (ASCII part; the program only strips
ASCII configuration text). -/
def isPyWs (c : Char) : Bool :=
  c = ' ' || c = '\t' || c = '\n' || c = '\x0d' || c = '\x0b' || c = '\x0c'

/-- Model of `str.strip()`. -/
def pyStrip (s : List Char) : List Char :=
  ((s.dropWhile isPyWs).reverse.dropWhile isPyWs).reverse

/-- Model of `str.split(sep)` for a single-character separator:
`"".split(c) = [""]`, separators delimit possibly empty fields. -/
def splitOnChar (sep : Char) : List Char → List (List Char)
  | [] => [[]]
  | c :: rest =>
    let r := splitOnChar sep rest
    if c = sep then [] :: r
    else
      match r with
      | [] => [[c]]
      | h :: t => (c :: h) :: t

/-- Value of a decimal digit list (most significant first). -/
def digitsToNat (ds : List Char) : Nat :=
  ds.foldl (fun acc c => acc * 10 + (c.toNat - 48)) 0

/-- Model of Python `int(s)` on the strings this program feeds it: surrounding
whitespace is stripped, an optional single sign is allowed, the remainder must
be one or more ASCII digits.  (Underscore grouping and non-ASCII digits, which
CPython also accepts, do not occur in this program's configuration grammar and
are modelled as failures.) -/
def pyInt (s : List Char) : Option Int :=
  let t := pyStrip s
  match t with
  | '+' :: ds => if ds ≠ [] ∧ ds.all Char.isDigit then some (Int.ofNat (digitsToNat ds)) else none
  | '-' :: ds => if ds ≠ [] ∧ ds.all Char.isDigit then some (-(Int.ofNat (digitsToNat ds))) else none
  | ds => if ds ≠ [] ∧ ds.all Char.isDigit then some (Int.ofNat (digitsToNat ds)) else none

/-- Truthiness of a Python `Optional[str]`: `None` and `""` are falsy. -/
def pyTruthyStr : Option String → Bool
  | none => false
  | some s => s ≠ ""

/-- Does `s` start with `pat`? -/
def listStartsWith : List Char → List Char → Bool
  | _, [] => true
  | [], _ :: _ => false
  | c :: cs, p :: ps => c == p && listStartsWith cs ps

/-- Substring search: does `pat` occur (contiguously) in the list? -/
def hasSubstring (pat : List Char) : List Char → Bool
  | [] => listStartsWith [] pat
  | c :: rest => listStartsWith (c :: rest) pat || hasSubstring pat rest

/-- Python `sub in s` for strings (used for `"200" not in status`). -/
def strContains (s sub : String) : Bool :=
  hasSubstring sub.data s.data

/-! ## Model of `urllib.parse` (as used by `validate_url` and the probes)

CPython's `urlsplit` (3.11 line): the URL is first stripped of leading
C0-control/space characters, then all tab/CR/LF characters are removed; a
scheme is split off at the first `:` when the prefix is a valid scheme and is
lowercased; after `//` the netloc extends to the first `/`, `?` or `#`;
unbalanced `[`/`]` in the netloc raise `ValueError`; the fragment is split at
the first `#`, then the query at the first `?`.  `urlparse` additionally splits
`;params` off the last path segment for http(s) URLs.  Bracketed-host
validation (3.11+) and non-ASCII netloc checks are not modelled; they only
reject further inputs that the validator also rejects. -/

/-- WHATWG C0-control-or-space predicate used by `urlsplit`'s leading strip. -/
def isC0OrSpace (c : Char) : Bool := c.toNat ≤ 32

/-- Removal of `\t`, `\r`, `\n` performed by `urlsplit`. -/
def removeUnsafeBytes (cs : List Char) : List Char :=
  cs.filter (fun c => c ≠ '\t' && c ≠ '\x0d' && c ≠ '\n')

/-- Input normalization done by `urlsplit` before any parsing. -/
def preprocessUrl (cs : List Char) : List Char :=
  removeUnsafeBytes (cs.dropWhile isC0OrSpace)

/-- Characters allowed in a scheme after the leading letter. -/
def isSchemeChar (c : Char) : Bool :=
  c.isAlpha || c.isDigit || c = '+' || c = '-' || c = '.'

/-- "not a colon", the scheme delimiter test. -/
def notColon (c : Char) : Bool := c ≠ ':'

/-- Scheme detection of `urlsplit`: split at the first `:` when the prefix is a
nonempty valid scheme, lowercasing it; otherwise no scheme. -/
def schemeSplit (cs : List Char) : List Char × List Char :=
  let pre := cs.takeWhile notColon
  if pre.length < cs.length ∧ pre ≠ [] ∧ ((pre.headD 'a').isAlpha && pre.all isSchemeChar) = true then
    (pre.map Char.toLower, cs.drop (pre.length + 1))
  else
    ([], cs)

/-- A netloc character terminator for `_splitnetloc`. -/
def isNetlocEnd (c : Char) : Bool := c = '/' || c = '?' || c = '#'

/-- Split at the first occurrence of `sep`: `(before, after)`, where `after`
excludes the separator (both CPython `str.split(sep, 1)` pieces). -/
def splitFirst (sep : Char) (cs : List Char) : List Char × List Char :=
  (cs.takeWhile (fun c => c ≠ sep), ((cs.dropWhile (fun c => c ≠ sep)).drop 1))

/-- The `urlsplit` netloc bracket sanity check: exactly one of `[`/`]`
present. -/
def bracketMismatch (netloc : List Char) : Bool :=
  (netloc.contains '[' && !netloc.contains ']')
    || (netloc.contains ']' && !netloc.contains '[')

/-- Result of `urlsplit` restricted to the components the program reads. -/
structure SplitResult where
  scheme : List Char
  netloc : List Char
  path : List Char
  query : List Char
  fragment : List Char
deriving DecidableEq, Repr

/-- Model of `urllib.parse.urlsplit`; `Except.error` is an uncaught
`ValueError`. -/
def urlsplitM (cs0 : List Char) : Except String SplitResult :=
  let cs := preprocessUrl cs0
  let scheme := (schemeSplit cs).1
  match (schemeSplit cs).2 with
  | '/' :: '/' :: r2 =>
    let netloc := r2.takeWhile (fun c => !isNetlocEnd c)
    let rest2 := r2.dropWhile (fun c => !isNetlocEnd c)
    if bracketMismatch netloc then
      .error "Invalid IPv6 URL"
    else
      .ok ⟨scheme, netloc, (splitFirst '?' (splitFirst '#' rest2).1).1,
        (splitFirst '?' (splitFirst '#' rest2).1).2, (splitFirst '#' rest2).2⟩
  | rest =>
    .ok ⟨scheme, [], (splitFirst '?' (splitFirst '#' rest).1).1,
      (splitFirst '?' (splitFirst '#' rest).1).2, (splitFirst '#' rest).2⟩

/-- The part of the netloc after the last `@` (CPython `rpartition('@')`). -/
def afterLastAt (netloc : List Char) : List Char :=
  (netloc.reverse.takeWhile (fun c => c ≠ '@')).reverse

/-- CPython `SplitResult._hostinfo`: `(hostname-part, port-part)` of a netloc,
with bracketed IPv6 handling. -/
def hostinfoOf (netloc : List Char) : List Char × List Char :=
  let hostinfo := afterLastAt netloc
  if hostinfo.contains '[' then
    let bracketed := (hostinfo.dropWhile (fun c => c ≠ '[')).drop 1
    let hostname := bracketed.takeWhile (fun c => c ≠ ']')
    let afterBr := (bracketed.dropWhile (fun c => c ≠ ']')).drop 1
    (hostname, (afterBr.dropWhile (fun c => c ≠ ':')).drop 1)
  else
    (hostinfo.takeWhile (fun c => c ≠ ':'), (hostinfo.dropWhile (fun c => c ≠ ':')).drop 1)

/-- CPython `SplitResult.port`: `None` for an empty port part; otherwise the
port must parse as an integer in `[0, 65535]`, else `ValueError` is raised
(uncaught in `validate_url`). -/
def pyPort (netloc : List Char) : Except String (Option Int) :=
  let port := (hostinfoOf netloc).2
  if port = [] then .ok none
  else
    match pyInt port with
    | some n => if 0 ≤ n ∧ n ≤ 65535 then .ok (some n) else .error "Port out of range 0-65535"
    | none => .error "invalid literal for int() with base 10"

/-- CPython `SplitResult.hostname`: lowercased host part, `None` if empty. -/
def pyHostname (netloc : List Char) : Option (List Char) :=
  let h := (hostinfoOf netloc).1
  if h = [] then none else some (h.map Char.toLower)

/-- CPython `_splitparams` as applied by `urlparse` for http(s): `;params` is
split off the segment after the last `/` (or off the whole path when it has no
`/`). -/
def paramsSplit (p : List Char) : List Char × List Char :=
  if p.contains '/' then
    let after := (p.reverse.takeWhile (fun c => c ≠ '/')).reverse
    let before := p.take (p.length - after.length)
    if after.contains ';' then
      (before ++ after.takeWhile (fun c => c ≠ ';'), (after.dropWhile (fun c => c ≠ ';')).drop 1)
    else (p, [])
  else if p.contains ';' then
    (p.takeWhile (fun c => c ≠ ';'), (p.dropWhile (fun c => c ≠ ';')).drop 1)
  else (p, [])

/-! ## Models of `idna` and `ipaddress` (as used by `validate_url`) -/

/-- Characters of a domain label accepted by `idna.decode` composed with the
program's `DOMAIN_REGEX` re-check of the decoded value: ASCII letters (the
library lowercases before checking), digits and hyphen.  Punycode (`xn--`)
labels are modelled as plain ASCII labels: decoding is modelled as the identity
on the ASCII payloads reachable here, and no claim involves an
internationalized domain. -/
def validDomainChar (c : Char) : Bool := c.isAlpha || c.isDigit || c = '-'

/-- Model of `idna.decode(domain)` succeeding and the decoded domain matching
`DOMAIN_REGEX = ^[a-zA-Z0-9.-]+$` (checks.py:139-153): every dot-separated
label is nonempty and made of letters/digits/hyphens; one trailing dot is
allowed (the library re-appends it). -/
def idnaRegexOk (domain : List Char) : Bool :=
  let labels := splitOnChar '.' domain
  let labels' := if labels.getLast? = some [] then labels.dropLast else labels
  !(labels'.isEmpty) && labels'.all (fun lb => !(lb.isEmpty) && lb.all validDomainChar)

/-- One dotted-quad octet per `ipaddress.IPv4Address`: 1-3 decimal digits, no
leading zero, value at most 255. -/
def parseOctet (cs : List Char) : Option Nat :=
  if cs ≠ [] ∧ cs.all Char.isDigit ∧ cs.length ≤ 3 ∧ (cs.length = 1 ∨ cs.headD '0' ≠ '0') then
    let v := digitsToNat cs
    if v ≤ 255 then some v else none
  else none

/-- Model of `ipaddress.ip_address` restricted to IPv4 dotted-quad literals.
IPv6 literals are modelled as parse failures: inside `validate_url` the
domain-character check runs first and no string containing `:` ever reaches the
address check, so the restriction is invisible there. -/
def parseIPv4 (cs : List Char) : Option (Nat × Nat × Nat × Nat) :=
  match (splitOnChar '.' cs).map parseOctet with
  | [some a, some b, some c, some d] => some (a, b, c, d)
  | _ => none

/-- `IPv4Address.is_loopback`: `127.0.0.0/8`. -/
def ipv4Loopback (a : Nat) : Bool := a = 127

/-- `IPv4Address.is_private`: the IPv4 private-network table of the `ipaddress`
module (includes loopback, link-local, RFC1918, TEST-NETs and the reserved
`240.0.0.0/4`). -/
def ipv4Private (a b c d : Nat) : Bool :=
  a = 0 || a = 10 || a = 127 || (a = 169 && b = 254) || (a = 172 && 16 ≤ b && b ≤ 31)
    || (a = 192 && b = 0 && c = 0 && (d ≤ 7 || d = 170 || d = 171))
    || (a = 192 && b = 0 && c = 2) || (a = 192 && b = 168)
    || (a = 198 && (b = 18 || b = 19)) || (a = 198 && b = 51 && c = 100)
    || (a = 203 && b = 0 && c = 113) || 240 ≤ a

/-- The explicit local-hostname list check (`hostname.lower() in ["localhost",
"127.0.0.1", "::1"]`), shared by checks.py:165 and checks.py:209. -/
def localCheckList (hostname : List Char) : Bool :=
  let lw := hostname.map Char.toLower
  lw = "localhost".data || lw = "127.0.0.1".data || lw = "::1".data

/-- `is_local_or_private_address` (checks.py:190-212): try to parse the
hostname as an IP address and test `is_private or is_loopback`; on parse
failure (or a public address) fall through to the literal string list. -/
def is_local_or_private_address (hostname : List Char) : Bool × String :=
  let isPriv :=
    match parseIPv4 hostname with
    | some (a, b, c, d) => ipv4Private a b c d || ipv4Loopback a
    | none => false
  if isPriv then (true, "Local or private addresses are not allowed.")
  else if localCheckList hostname then (true, "Local or private addresses are not allowed.")
  else (false, "")

/-! ## `validate_url` (checks.py:65-187) -/

/-- `URLValidationResult` of checks.py. -/
structure URLValidationResult where
  valid : Bool
  error : Option String
  normalized_url : Option String
deriving DecidableEq, Repr

/-- The early-return shape of `validate_url`: `valid=False` plus a reason. -/
def mkInvalid (e : String) : URLValidationResult := ⟨false, some e, none⟩

/-- Python truthiness of `parsed_url.port` (`None` and `0` are falsy). -/
def truthyPort : Option Int → Bool
  | none => false
  | some v => v != 0

/-- The checks of `validate_url` that run on the parse result (checks.py
lines 106-187), rule for rule in source order.  The `Except.error` case is an
uncaught exception (the `parsed_url.port` accessor on a malformed port raises
`ValueError` outside any `try`).  The two rejection branches for an IDNA
failure versus a regex mismatch of the decoded domain are modelled as one
branch (the combined predicate `idnaRegexOk`), carrying the Punycode
message. -/
def validate_parsed (sr : SplitResult) : Except String URLValidationResult :=
  if ¬(sr.scheme = "http".data ∨ sr.scheme = "https".data) then
    .ok (mkInvalid "URL scheme must be http or https.")
  else if sr.netloc = [] then
    .ok (mkInvalid "URL must contain a domain name.")
  else if ¬((paramsSplit sr.path).1 = [] ∨ (paramsSplit sr.path).1 = ['/'])
      ∨ sr.query ≠ [] ∨ sr.fragment ≠ [] then
    .ok (mkInvalid "URL must contain only a domain (no path, query, or fragment).")
  else
    match pyPort sr.netloc with
    | .error e => .error e
    | .ok p =>
      if truthyPort p then
        .ok (mkInvalid "URL must not contain a port.")
      else if !idnaRegexOk sr.netloc then
        .ok (mkInvalid "Invalid domain name (Punycode error).")
      else if (is_local_or_private_address sr.netloc).1 then
        .ok (mkInvalid (is_local_or_private_address sr.netloc).2)
      else if localCheckList sr.netloc then
        .ok (mkInvalid "Local or private addresses are not allowed.")
      else if sr.netloc.any (fun c => c = '<' || c = '>' || c = ';') then
        .ok (mkInvalid "Domain contains invalid characters (<, >, ;).")
      else
        .ok ⟨true, none, some (String.mk (sr.scheme ++ "://".data ++ sr.netloc))⟩

/-- `validate_url` (checks.py:65-187): length and control-character checks,
then the parse, then `validate_parsed`. -/
def validate_url (url : String) : Except String URLValidationResult :=
  let cs := url.data
  if 300 < cs.length then
    .ok (mkInvalid "URL is too long (max 300 characters).")
  else if cs.any (fun c => c = '\n' || c = '\x0d' || c = '\t') then
    .ok (mkInvalid "URL contains invalid control characters.")
  else
    match urlsplitM cs with
    | .error _ => .ok (mkInvalid "Invalid URL format.")
    | .ok sr => validate_parsed sr

/-! ## `check_website_status` (checks.py:215-254) and the `tenacity` wrapper

The probe's interaction with the network is modelled by a list of attempt
outcomes: what each successive HTTP call would do (throw a transport error, or
return a status).  The decorated function consumes one outcome per attempt it
actually makes. -/

/-- `WebsiteStatus` of checks.py. -/
structure WebsiteStatus where
  url : String
  status : String
  error : Option String
deriving DecidableEq, Repr

/-- Outcome of one would-be HTTP call. -/
inductive HttpAttempt where
  | throw (msg : String)
  | respond (code : Nat) (reason : String)
deriving DecidableEq, Repr

/-- `urlparse(url).netloc` for the probe; a parse `ValueError` (possible only
for an unbalanced-bracket netloc, which no registered URL can have) is
modelled as an empty netloc. -/
def urlNetloc (url : String) : List Char :=
  match urlsplitM url.data with
  | .ok sr => sr.netloc
  | .error _ => []

/-- The body of `check_website_status` (checks.py:228-254) run on one attempt
outcome: short-circuit for local/private hosts; a response of any status code
is a success whose `status` is `"<code> <reason>"`; the `except Exception`
clause turns a throwing HTTP call into `status="down"` with the message in
`error`. -/
def checkWebsiteOnce (url : String) (a : HttpAttempt) : WebsiteStatus :=
  let domain := urlNetloc url
  let lc := is_local_or_private_address domain
  if lc.1 then ⟨url, "down", some lc.2⟩
  else
    match a with
    | .respond code reason => ⟨url, toString code ++ " " ++ reason, none⟩
    | .throw m => ⟨url, "down", some m⟩

/-- The body as the `tenacity` decorator sees it: because the body catches
every `Exception` itself, it never raises, so this is always `.ok`. -/
def checkWebsiteBody (url : String) (a : HttpAttempt) : Except String WebsiteStatus :=
  .ok (checkWebsiteOnce url a)

/-- `tenacity.retry(stop=stop_after_attempt(n))` with the default retry
condition: re-invoke the wrapped body only when it raises; after `n` raising
attempts the last exception propagates.  `none` means the modelled attempt
list was shorter than the number of attempts actually consumed. -/
def tenacityRun {α β : Type} (body : α → Except String β) :
    Nat → List α → Option (Except String β)
  | 0, _ => none
  | _ + 1, [] => none
  | n + 1, a :: rest =>
    match body a with
    | .ok b => some (.ok b)
    | .error e => if n = 0 then some (.error e) else tenacityRun body n rest

/-- `check_website_status` as deployed: the retry-decorated body, 3 attempts
maximum. -/
def check_website_status (url : String) (attempts : List HttpAttempt) :
    Option (Except String WebsiteStatus) :=
  tenacityRun (checkWebsiteBody url) 3 attempts

/-- Modelled from the spec: the retry policy the specification describes for
the HTTP probe (missing from the deployed code path, where the internal
`except` clause hides every failure from the decorator): up to 3 attempts,
retrying only on transport-level throws, never on non-2xx responses, and
`status="down"` with the failure message only after all attempts are
exhausted. -/
def claimedWebsiteProbe (url : String) : Nat → List HttpAttempt → Option WebsiteStatus
  | 0, _ => none
  | _ + 1, [] => none
  | n + 1, a :: rest =>
    match a with
    | .respond code reason => some ⟨url, toString code ++ " " ++ reason, none⟩
    | .throw m =>
      if n = 0 then some ⟨url, "down", some m⟩ else claimedWebsiteProbe url n rest

/-! ## Site registry (`modules/storage.py`)

The persisted file is modelled at the JSON level: `RegFile.absent` is a
missing registry, `RegFile.badJson` a file whose contents fail JSON decoding,
`RegFile.json v` a file holding the decoded value `v`.  Python dicts are
insertion-ordered association lists with unique keys (the JSON parser collapses
duplicates). -/

/-- JSON values (registry numbers are integers; floats do not occur in the
registry schema). -/
inductive JVal where
  | jnull
  | jbool (b : Bool)
  | jnum (n : Int)
  | jstr (s : String)
  | jarr (xs : List JVal)
  | jobj (fields : List (String × JVal))
deriving Repr

/-- Python exceptions distinguished by `load_sites`/`save` behaviour. -/
inductive PyErr where
  | valueError (msg : String)
  | typeError (msg : String)
  | keyError (k : String)
deriving DecidableEq, Repr

/-- `CONTROL_CHAR_REGEX = [\n\r\t]` search (storage.py:11). -/
def hasCtlChar (s : String) : Bool :=
  s.data.any (fun c => c = '\n' || c = '\x0d' || c = '\t')

/-- Python dict key lookup on the model's association list. -/
def pyLookup (k : String) (fs : List (String × JVal)) : Option JVal :=
  (fs.find? (fun p => p.1 == k)).map (fun p => p.2)

/-- Python dict key-membership test. -/
def pyHasKey (k : String) (fs : List (String × JVal)) : Bool :=
  fs.any (fun p => p.1 == k)

/-- `dict.setdefault(k, v)`: insert `(k, v)` at the end when `k` is absent. -/
def setdefault (k : String) (v : JVal) (fs : List (String × JVal)) :
    List (String × JVal) :=
  if pyHasKey k fs then fs else fs ++ [(k, v)]

/-- The six `setdefault` calls of `load_sites` (storage.py:80-85), in source
order. -/
def backfillFields (fs : List (String × JVal)) : List (String × JVal) :=
  setdefault "dns_records" (JVal.jobj [])
    (setdefault "dns_last_checked" JVal.jnull
      (setdefault "dns_mx" JVal.jnull
        (setdefault "dns_a" JVal.jnull
          (setdefault "ssl_notifications" (JVal.jarr [])
            (setdefault "domain_notifications" (JVal.jarr []) fs)))))

/-- The per-entry validation and backfill in `load_sites`' loop
(storage.py:68-85): a non-dict entry or one without `"url"` raises
`ValueError`; `re.search` on a non-string `url` raises `TypeError`; a URL with
a control character raises `ValueError`; otherwise the entry gains the default
fields. -/
def processSite (s : JVal) : Except PyErr JVal :=
  match s with
  | .jobj fs =>
    if pyHasKey "url" fs then
      match pyLookup "url" fs with
      | some (.jstr u) =>
        if hasCtlChar u then .error (.valueError "URL contains control characters")
        else .ok (.jobj (backfillFields fs))
      | some _ => .error (.typeError "expected string or bytes-like object")
      | none => .error (.keyError "url")
    else .error (.valueError "Invalid site entry")
  | _ => .error (.valueError "Invalid site entry")

/-- The `for site in sites` loop of `load_sites` over a decoded list: stop at
the first raising entry, otherwise collect the validated, backfilled
entries. -/
def processSites : List JVal → Except PyErr (List JVal)
  | [] => .ok []
  | s :: rest =>
    match processSite s with
    | .error e => .error e
    | .ok s' =>
      match processSites rest with
      | .error e => .error e
      | .ok rest' => .ok (s' :: rest')

/-- State of one owner's registry file. -/
inductive RegFile where
  | absent
  | badJson
  | json (v : JVal)
deriving Repr

/-- `load_sites` (storage.py:41-94).  A missing file yields `[]`; undecodable
JSON raises `ValueError`; a decoded list is validated and backfilled
entrywise.  `for site in sites` iterates whatever `json.load` produced: a
dict iterates its keys and a string its characters, so a *nonempty* dict or
string fails on its first (string) element, while an *empty* dict or string
makes the loop vacuous and the original non-list value is returned unchanged;
a JSON number/bool/null is not iterable and raises `TypeError`. -/
def load_sites (f : RegFile) : Except PyErr JVal :=
  match f with
  | .absent => .ok (JVal.jarr [])
  | .badJson => .error (.valueError "Invalid JSON")
  | .json v =>
    match v with
    | .jarr xs => (processSites xs).map JVal.jarr
    | .jobj [] => .ok v
    | .jobj (_ :: _) => .error (.valueError "Invalid site entry")
    | .jstr s => if s = "" then .ok v else .error (.valueError "Invalid site entry")
    | _ => .error (.typeError "object is not iterable")

/-- The per-entry control-character re-validation in `save` (storage.py:115-122);
`site["url"]` on a malformed entry raises. -/
def saveCheckSite (s : JVal) : Except PyErr Unit :=
  match s with
  | .jobj fs =>
    match pyLookup "url" fs with
    | some (.jstr u) =>
      if hasCtlChar u then .error (.valueError "URL contains control characters")
      else .ok ()
    | some _ => .error (.typeError "expected string or bytes-like object")
    | none => .error (.keyError "url")
  | _ => .error (.typeError "not subscriptable")

/-- The URL re-validation loop of `save` over the whole list. -/
def saveCheckAll : List JVal → Except PyErr Unit
  | [] => .ok ()
  | s :: rest =>
    match saveCheckSite s with
    | .error e => .error e
    | .ok _ => saveCheckAll rest

/-- `save` (storage.py:97-133): validate every URL, then write the full list
(`json.dump` round-trips the modelled JSON value exactly; `OSError` on the
actual write is outside the model). -/
def save (sites : List JVal) : Except PyErr RegFile :=
  (saveCheckAll sites).map (fun _ => RegFile.json (JVal.jarr sites))

/-- A well-formed registry entry in the sense of claim C6: an object carrying
a string `url` free of control characters. -/
def wellFormedSite (s : JVal) : Bool :=
  match s with
  | .jobj fs =>
    match pyLookup "url" fs with
    | some (.jstr u) => !hasCtlChar u
    | _ => false
  | _ => false

/-- Default-field backfill as a total function on entries (the effect of
`load_sites` on a valid entry). -/
def backfillSite (s : JVal) : JVal :=
  match s with
  | .jobj fs => JVal.jobj (backfillFields fs)
  | _ => s

/-- `Except.ok`-ness as a Bool (for stating "returns rather than raises"). -/
def exceptIsOk {ε α : Type} : Except ε α → Bool
  | .ok _ => true
  | .error _ => false

/-! ## Configuration (`modules/config.py`, `load_config`) -/

/-- The environment variables `load_config` reads (`None` = unset). -/
structure EnvVars where
  bot_token : Option String
  group_id : Option String
  topic_id : Option String
  check_interval : Option String
  domain_expiry_threshold : Option String
  ssl_expiry_threshold : Option String
  notification_mode : Option String
  user_id : Option String
deriving Repr

/-- `os.getenv(name, default)`. -/
def getenvD (v : Option String) (d : String) : String := v.getD d

/-- The `.split("#")[0].strip()` preprocessing applied to several variables. -/
def splitHashStrip (s : String) : String :=
  String.mk (pyStrip ((splitOnChar '#' s.data).headD []))

/-- `[int(x) for x in s.split(",")]`: `none` when any piece fails `int`. -/
def parseIntListPy (s : String) : Option (List Int) :=
  (splitOnChar ',' s.data).mapM pyInt

/-- The validated configuration (the typed end-state of the config dict). -/
structure BotConfig where
  bot_token : String
  group_id : Option String
  topic_id : Option String
  check_interval : Int
  domain_expiry_threshold : List Int
  ssl_expiry_threshold : List Int
  notification_mode : String
  user_id : Option String
deriving DecidableEq, Repr

/-- The `TOPIC_ID` check of `load_config` (config.py:121-132): a truthy value
is split/stripped, replaces the stored value, and must parse as an integer. -/
def checkTopicId (topic_id : Option String) : Except String (Option String) :=
  if pyTruthyStr topic_id then
    let t := splitHashStrip (topic_id.getD "")
    match pyInt t.data with
    | none => .error "TOPIC_ID must be a valid integer"
    | some _ => .ok (some t)
  else .ok topic_id

/-- The `USER_ID` check of `load_config` (config.py:134-144): a truthy value
must parse as an integer (the string itself is kept). -/
def checkUserId (user_id : Option String) : Except String Unit :=
  if pyTruthyStr user_id then
    match pyInt ((user_id.getD "").data) with
    | none => .error "USER_ID must be a valid integer"
    | some _ => .ok ()
  else .ok ()

/-- `load_config` (config.py:16-147), check for check in source order;
`Except.error` is the raised `ValueError`. -/
def load_config (env : EnvVars) : Except String BotConfig :=
  let checkIntervalS := splitHashStrip (getenvD env.check_interval "3600")
  let domThreshS := splitHashStrip (getenvD env.domain_expiry_threshold "30,15,7,1")
  let sslThreshS := splitHashStrip (getenvD env.ssl_expiry_threshold "30,15,7,1")
  let mode := splitHashStrip (getenvD env.notification_mode "group")
  if !pyTruthyStr env.bot_token then .error "BOT_TOKEN is required"
  else if !(mode == "group" || mode == "user") then
    .error "NOTIFICATION_MODE must be group or user"
  else if mode == "group" && !pyTruthyStr env.group_id then
    .error "GROUP_ID is required when NOTIFICATION_MODE is group"
  else if mode == "user" && !pyTruthyStr env.user_id then
    .error "USER_ID is required when NOTIFICATION_MODE is user"
  else
    match pyInt checkIntervalS.data with
    | none => .error "CHECK_INTERVAL must be a valid integer"
    | some ci =>
      match parseIntListPy domThreshS with
      | none => .error "DOMAIN_EXPIRY_THRESHOLD must be comma-separated integers"
      | some dts =>
        match parseIntListPy sslThreshS with
        | none => .error "SSL_EXPIRY_THRESHOLD must be comma-separated integers"
        | some sts =>
          match checkTopicId env.topic_id with
          | .error e => .error e
          | .ok topic' =>
            match checkUserId env.user_id with
            | .error e => .error e
            | .ok _ =>
              .ok { bot_token := (env.bot_token).getD "", group_id := env.group_id,
                    topic_id := topic', check_interval := ci,
                    domain_expiry_threshold := dts, ssl_expiry_threshold := sts,
                    notification_mode := mode, user_id := env.user_id }

/-! ## The per-site check cycle (`modules/notifications.py`, `check_site_status`)

Timestamps are integers (seconds); a Python date *string* field is modelled by
`DateVal`: `null` for `None`/`""` (falsy), `bad s` for a nonempty string on
which `datetime.strptime` raises `ValueError`, `ok t` for one that parses to
time `t`.  `days_left = (expiry - datetime.now()).days` is flooring division
of the second difference, as `timedelta.days` is.  Sending a notification is
modelled as emitting a `Msg`; delivery failures are swallowed by
`send_notification` and do not alter the control flow. -/

/-- A date-string-valued field as the cycle observes it. -/
inductive DateVal where
  | null
  | bad (s : String)
  | ok (t : Int)
deriving DecidableEq, Repr

/-- `(expiry - datetime.now()).days`. -/
def daysBetween (t now : Int) : Int := (t - now).fdiv 86400

/-- `SSLStatus` of checks.py with the `expires` string abstracted to
`DateVal`. -/
structure SSLStatusR where
  url : String
  ssl_status : String
  expires : DateVal
  error : Option String
deriving DecidableEq, Repr

/-- `DomainStatus` of checks.py with the `expires` string abstracted to
`DateVal`. -/
structure DomainStatusR where
  url : String
  expires : DateVal
  registrar : Option String
  registrar_url : Option String
  error : Option String
  success : Bool
deriving DecidableEq, Repr

/-- `SiteConfig` restricted to the fields `check_site_status` reads or writes
(the DNS snapshot fields are untouched by the cycle). -/
structure SiteConfigR where
  url : String
  ssl_valid : Option Bool
  ssl_expires : DateVal
  domain_expires : DateVal
  domain_last_checked : DateVal
  domain_notifications : List Int
  ssl_notifications : List Int
deriving DecidableEq, Repr

/-- The notifications a cycle can emit for one site. -/
inductive Msg where
  | sslWarn (threshold daysLeft : Int)
  | domainWarn (threshold daysLeft : Int)
  | websiteIssue (status : String) (error : Option String)
  | sslIssue (ssl_status : String) (error : Option String)
deriving DecidableEq, Repr

/-- The SSL-expiry warning block (notifications.py:141-164): on a parseable
`ssl_expires`, compute the bucket and send+record only when the bucket is
truthy (`None` and `0` both fail `if nearest_threshold`) and not already in
`ssl_notifications`; a `strptime` failure only logs. -/
def sslWarnPhase (site : SiteConfigR) (sslThresholds : List Int) (now : Int) :
    SiteConfigR × List Msg :=
  match site.ssl_expires with
  | .null => (site, [])
  | .bad _ => (site, [])
  | .ok t =>
    let d := daysBetween t now
    match get_nearest_threshold d sslThresholds with
    | none => (site, [])
    | some b =>
      if b ≠ 0 ∧ b ∉ site.ssl_notifications then
        ({ site with ssl_notifications := site.ssl_notifications ++ [b] },
          [Msg.sslWarn b d])
      else (site, [])

/-- The domain-expiry warning block (notifications.py:199-224), the mirror
image of `sslWarnPhase` on `domain_expires`/`domain_notifications`. -/
def domainWarnPhase (site : SiteConfigR) (domainThresholds : List Int) (now : Int) :
    SiteConfigR × List Msg :=
  match site.domain_expires with
  | .null => (site, [])
  | .bad _ => (site, [])
  | .ok t =>
    let d := daysBetween t now
    match get_nearest_threshold d domainThresholds with
    | none => (site, [])
    | some b =>
      if b ≠ 0 ∧ b ∉ site.domain_notifications then
        ({ site with domain_notifications := site.domain_notifications ++ [b] },
          [Msg.domainWarn b d])
      else (site, [])

/-- The 24-hour WHOIS throttle (notifications.py:169-184): re-check when
`domain_last_checked` is falsy or unparsable, or at least a day old. -/
def shouldCheckDomain (site : SiteConfigR) (now : Int) : Bool :=
  match site.domain_last_checked with
  | .null => true
  | .bad _ => true
  | .ok t => !(now - t < 86400 : Bool)

/-- `urlparse(url).hostname` for the WHOIS block; a parse `ValueError`
(unbalanced bracket, unreachable for validated URLs) is modelled as a missing
hostname. -/
def siteDomain (url : String) : Option (List Char) :=
  match urlsplitM url.data with
  | .ok sr => pyHostname sr.netloc
  | .error _ => none

/-- Truthiness of the `domain` variable (`urlparse(url).hostname`): `None` and
`""` are falsy. -/
def domTruthyOf : Option (List Char) → Bool
  | some d => !d.isEmpty
  | none => false

/-- The WHOIS block (notifications.py:186-197): when due and the hostname is
truthy, a successful check updates `domain_expires` and stamps
`domain_last_checked` with the current time; a failed check only logs. -/
def domainCheckPhase (site : SiteConfigR) (domain : Option (List Char))
    (dr : DomainStatusR) (now : Int) : SiteConfigR :=
  if shouldCheckDomain site now && domTruthyOf domain then
    if dr.success then
      { site with domain_expires := dr.expires, domain_last_checked := DateVal.ok now }
    else site
  else site

/-- The `domain_expires` value the domain-warning block will observe: the
fresh WHOIS expiry when the throttled check ran and succeeded, the stored one
otherwise. -/
def effDomainExpires (site : SiteConfigR) (domain : Option (List Char))
    (dr : DomainStatusR) (now : Int) : DateVal :=
  if shouldCheckDomain site now && domTruthyOf domain && dr.success then dr.expires
  else site.domain_expires

/-- `f"{user_id}:{url}"`, the `last_status` cache key. -/
def statusKey (userId : Int) (url : String) : String :=
  toString userId ++ ":" ++ url

/-- The in-memory `last_status` dict. -/
def LastStatus : Type := List (String × (WebsiteStatus × SSLStatusR))

/-- `last_status.get(key)`. -/
def lookupLS (k : String) (m : LastStatus) : Option (WebsiteStatus × SSLStatusR) :=
  (m.find? (fun p => p.1 == k)).map (fun p => p.2)

/-- `last_status[key] = value` (overwrite or append). -/
def setLS (k : String) (v : WebsiteStatus × SSLStatusR) : LastStatus → LastStatus
  | [] => [(k, v)]
  | (k', v') :: rest => if k' == k then (k', v) :: rest else (k', v') :: setLS k v rest

/-- `status_result["error"] or "200" not in status_result["status"]`. -/
def unhealthyWebsite (st : WebsiteStatus) : Bool :=
  pyTruthyStr st.error || !strContains st.status "200"

/-- `ssl_result["error"] or ssl_result["ssl_status"] != "valid"`. -/
def unhealthySSL (ssl : SSLStatusR) : Bool :=
  pyTruthyStr ssl.error || ssl.ssl_status != "valid"

/-- The incident block (notifications.py:226-262): when the
`(WebsiteStatus, SSLStatus)` pair differs from the cached pair, send the
website-issue and/or SSL-issue message for whichever bad-state test holds and
overwrite the cache entry with the new pair; an unchanged pair does nothing. -/
def incidentPhase (userId : Int) (url : String) (st : WebsiteStatus)
    (ssl : SSLStatusR) (ls : LastStatus) : List Msg × LastStatus :=
  let key := statusKey userId url
  let current := (st, ssl)
  if lookupLS key ls ≠ some current then
    ((if unhealthyWebsite st then [Msg.websiteIssue st.status st.error] else [])
      ++ (if unhealthySSL ssl then [Msg.sslIssue ssl.ssl_status ssl.error] else []),
      setLS key current ls)
  else ([], ls)

/-- Result of one `check_site_status` call: the mutated site, the messages
sent, the updated cache. -/
structure CheckOutcome where
  site : SiteConfigR
  msgs : List Msg
  lastStatus : LastStatus

/-- Lines 137-139: the SSL probe's outcome folded into the site before the
warning blocks run. -/
def cssSite1 (site : SiteConfigR) (sslResult : SSLStatusR) : SiteConfigR :=
  { site with
    ssl_valid := some (sslResult.ssl_status == "valid"),
    ssl_expires := sslResult.expires }

/-- The site state after the SSL warning block and the throttled WHOIS
block. -/
def cssSite3 (site : SiteConfigR) (sslResult : SSLStatusR)
    (sslThresholds : List Int) (domainResult : DomainStatusR) (now : Int) :
    SiteConfigR :=
  domainCheckPhase (sslWarnPhase (cssSite1 site sslResult) sslThresholds now).1
    (siteDomain site.url) domainResult now

/-- `check_site_status` (notifications.py:103-262) for one site, given the
probe outcomes of this cycle: fold the SSL probe into the site, run the SSL
warning block, the throttled WHOIS block, the domain warning block, then the
incident block.  (The early return for a probe returning an `Exception`
instance is dead: both probes catch their own exceptions.) -/
def check_site_status (userId : Int) (site : SiteConfigR)
    (sslThresholds domainThresholds : List Int) (statusResult : WebsiteStatus)
    (sslResult : SSLStatusR) (domainResult : DomainStatusR) (now : Int)
    (lastStatus : LastStatus) : CheckOutcome :=
  ⟨(domainWarnPhase (cssSite3 site sslResult sslThresholds domainResult now)
      domainThresholds now).1,
   (sslWarnPhase (cssSite1 site sslResult) sslThresholds now).2
     ++ (domainWarnPhase (cssSite3 site sslResult sslThresholds domainResult now)
          domainThresholds now).2
     ++ (incidentPhase userId site.url statusResult sslResult lastStatus).1,
   (incidentPhase userId site.url statusResult sslResult lastStatus).2⟩

/-- Message classifiers for the theorems. -/
def isIncidentMsg : Msg → Bool
  | .websiteIssue _ _ => true
  | .sslIssue _ _ => true
  | _ => false

def isSslWarnMsg : Msg → Bool
  | .sslWarn _ _ => true
  | _ => false

def isDomainWarnMsg : Msg → Bool
  | .domainWarn _ _ => true
  | _ => false

/-! ## Concrete fixtures used by witnesses, counterexamples and scenarios -/

def exUrl : String := "https://example.com"

def c4attempts : List HttpAttempt :=
  [HttpAttempt.throw "Connection timeout", HttpAttempt.respond 200 "OK"]

def c7badEnv : EnvVars :=
  { bot_token := some "token", group_id := some "-100123", topic_id := none,
    check_interval := some "0", domain_expiry_threshold := none,
    ssl_expiry_threshold := none, notification_mode := none, user_id := none }

def c7badCfg : BotConfig :=
  { bot_token := "token", group_id := some "-100123", topic_id := none,
    check_interval := 0, domain_expiry_threshold := [30, 15, 7, 1],
    ssl_expiry_threshold := [30, 15, 7, 1], notification_mode := "group",
    user_id := none }

def c7wEnv : EnvVars :=
  { bot_token := some "token", group_id := some "-100123", topic_id := none,
    check_interval := some "abc", domain_expiry_threshold := some "30,x",
    ssl_expiry_threshold := some "y", notification_mode := none, user_id := none }

/-- A healthy HTTP probe result. -/
def c2st : WebsiteStatus := ⟨exUrl, "200 OK", none⟩

/-- A valid SSL probe result whose certificate expires `d` days from time 0. -/
def c2ssl (d : Int) : SSLStatusR := ⟨exUrl, "valid", DateVal.ok (d * 86400), none⟩

/-- A failed WHOIS probe result. -/
def c2dr : DomainStatusR := ⟨"example.com", DateVal.null, none, none, some "whois failed", false⟩

/-- The C2 scenario target: bucket 30 already notified for SSL. -/
def c2site : SiteConfigR :=
  { url := exUrl, ssl_valid := some true, ssl_expires := DateVal.null,
    domain_expires := DateVal.null, domain_last_checked := DateVal.null,
    domain_notifications := [], ssl_notifications := [30] }

/-- Like `c2site` but with an empty SSL notification history. -/
def c2wsite : SiteConfigR := { c2site with ssl_notifications := [] }

/-- An unhealthy HTTP probe result (`503`). -/
def c3st : WebsiteStatus := ⟨exUrl, "503 Service Unavailable", none⟩

/-- A cache already holding the 503 pair. -/
def c3ls : LastStatus := [(statusKey 1 exUrl, (c3st, c2ssl 25))]

/-- C10 target: thresholds contain only 0; the stored domain expiry is one day
in the past. -/
def c10site : SiteConfigR :=
  { url := exUrl, ssl_valid := none, ssl_expires := DateVal.null,
    domain_expires := DateVal.ok (-86400), domain_last_checked := DateVal.null,
    domain_notifications := [], ssl_notifications := [] }

/-- C10 SSL probe: certificate already expired (one day past). -/
def c10ssl : SSLStatusR := ⟨exUrl, "valid", DateVal.ok (-86400), none⟩

def c6sites : List JVal :=
  [JVal.jobj [("url", JVal.jstr "https://example.com"), ("ssl_valid", JVal.jbool true)]]

def c9res : URLValidationResult :=
  ⟨false, some "Local or private addresses are not allowed.", none⟩

/-- The parse of `http://127.0.0.1`. -/
def c9sr : SplitResult := ⟨"http".data, "127.0.0.1".data, [], [], []⟩

def c8res : URLValidationResult := ⟨true, none, some "https://example.com"⟩

/-! # Theorems

Supporting lemmas first, then one theorem per claim (with witnesses and
counterexamples where applicable). -/

theorem sortDesc_cons (y : Int) (ys : List Int) :
    sortDesc (y :: ys) = insertDesc y (sortDesc ys) := rfl

theorem mem_insertDesc {a x : Int} {l : List Int} :
    a ∈ insertDesc x l ↔ a = x ∨ a ∈ l := by
  induction l with
  | nil => simp [insertDesc]
  | cons y ys ih =>
    simp only [insertDesc]
    split
    · simp [List.mem_cons]
    · simp [List.mem_cons, ih]
      tauto

theorem mem_sortDesc {a : Int} {l : List Int} : a ∈ sortDesc l ↔ a ∈ l := by
  induction l with
  | nil => simp [sortDesc]
  | cons y ys ih =>
    rw [sortDesc_cons]
    simp [mem_insertDesc, ih, List.mem_cons]

theorem insertDesc_sorted {x : Int} {l : List Int} (h : l.Pairwise (· ≥ ·)) :
    (insertDesc x l).Pairwise (· ≥ ·) := by
  induction l with
  | nil => simp [insertDesc]
  | cons y ys ih =>
    rcases List.pairwise_cons.mp h with ⟨hy, hys⟩
    simp only [insertDesc]
    split
    · rename_i hlt
      refine List.pairwise_cons.mpr ⟨?_, h⟩
      intro b hb
      rcases List.mem_cons.mp hb with rfl | hb'
      · exact le_of_lt hlt
      · exact le_trans (hy b hb') (le_of_lt hlt)
    · rename_i hge
      refine List.pairwise_cons.mpr ⟨?_, ih hys⟩
      intro b hb
      rcases mem_insertDesc.mp hb with rfl | hb'
      · exact le_of_not_lt hge
      · exact hy b hb'

theorem sortDesc_sorted (l : List Int) : (sortDesc l).Pairwise (· ≥ ·) := by
  induction l with
  | nil => simp [sortDesc]
  | cons y ys ih =>
    rw [sortDesc_cons]
    exact insertDesc_sorted ih

/-- On a nonempty threshold list whose maximum is `m`, any `d ≤ m` buckets to
`m` itself (descending walk, first match wins). -/
theorem get_nearest_threshold_max {d m : Int} {l : List Int}
    (hm : m ∈ l) (hmax : ∀ t ∈ l, t ≤ m) (hd : d ≤ m) :
    get_nearest_threshold d l = some m := by
  cases hs : sortDesc l with
  | nil =>
    exfalso
    have : m ∈ sortDesc l := mem_sortDesc.mpr hm
    rw [hs] at this
    exact (List.not_mem_nil m) this
  | cons h t =>
    have hhl : h ∈ l := by
      have : h ∈ sortDesc l := by rw [hs]; exact List.mem_cons_self h t
      exact mem_sortDesc.mp this
    have hms : m ∈ sortDesc l := mem_sortDesc.mpr hm
    rw [hs] at hms
    have hsorted := sortDesc_sorted l
    rw [hs] at hsorted
    have hhm : h = m := by
      rcases List.mem_cons.mp hms with rfl | hmt
      · rfl
      · have h1 : h ≥ m := (List.pairwise_cons.mp hsorted).1 m hmt
        have h2 : h ≤ m := hmax h hhl
        exact le_antisymm h2 h1
    subst hhm
    unfold get_nearest_threshold
    rw [hs]
    rw [List.find?_cons_of_pos]
    exact decide_eq_true hd

/-- When every threshold is strictly below `days_left`, no bucket is returned. -/
theorem get_nearest_threshold_none {d : Int} {l : List Int}
    (h : ∀ t ∈ l, t < d) : get_nearest_threshold d l = none := by
  unfold get_nearest_threshold
  rw [List.find?_eq_none]
  intro x hx
  have : x < d := h x (mem_sortDesc.mp hx)
  simp [not_le.mpr this]

/-- C1: `get_nearest_threshold` walks the thresholds in descending sorted
order and returns the first `t` with `days_left <= t` (so any `days_left`
at most the maximum threshold buckets to that maximum), and returns `None`
when every threshold is below `days_left`; in particular
`get_nearest_threshold(10, [30,15,7,1]) = 30`,
`get_nearest_threshold(5, [1,7,15,30]) = 30` and
`get_nearest_threshold(40, [30,15,7,1]) = None`. -/
theorem claim_C1 :
    (∀ (d : Int) (l : List Int),
      get_nearest_threshold d l = (sortDesc l).find? (fun t => decide (d ≤ t)))
  ∧ (∀ (d m : Int) (l : List Int), m ∈ l → (∀ t ∈ l, t ≤ m) → d ≤ m →
      get_nearest_threshold d l = some m)
  ∧ (∀ (d : Int) (l : List Int), (∀ t ∈ l, t < d) → get_nearest_threshold d l = none)
  ∧ get_nearest_threshold 10 [30, 15, 7, 1] = some 30
  ∧ get_nearest_threshold 5 [1, 7, 15, 30] = some 30
  ∧ get_nearest_threshold 40 [30, 15, 7, 1] = none :=
  ⟨fun _ _ => rfl,
   fun _ _ _ hm hmax hd => get_nearest_threshold_max hm hmax hd,
   fun _ _ h => get_nearest_threshold_none h,
   by decide, by decide, by decide⟩

/-- Witness for C1 at concrete inputs: the max-bucket clause at
`days_left = 10` over `[30,15,7,1]` and the no-bucket clause at
`days_left = 40`. -/
theorem claim_C1_witness :
    get_nearest_threshold 10 [30, 15, 7, 1] = some 30
    ∧ get_nearest_threshold 40 [30, 15, 7, 1] = none :=
  ⟨claim_C1.2.1 10 30 [30, 15, 7, 1] (by decide) (by decide) (by decide),
   claim_C1.2.2.1 40 [30, 15, 7, 1] (by decide)⟩

/-- C4 (code bug witnessed): on a URL whose first HTTP call throws a transport
error and whose second would return `200 OK`, the deployed probe returns
`status="down"` with the failure message after the *first* attempt — the
`except Exception` clause inside the function body means the `tenacity`
decorator never observes a raise, so no retry ever happens — whereas the
specified retry policy would return `"200 OK"`. -/
theorem claim_C4 :
    check_website_status exUrl c4attempts
      = some (Except.ok ⟨exUrl, "down", some "Connection timeout"⟩)
  ∧ claimedWebsiteProbe exUrl 3 c4attempts = some ⟨exUrl, "200 OK", none⟩
  ∧ (⟨exUrl, "down", some "Connection timeout"⟩ : WebsiteStatus)
      ≠ ⟨exUrl, "200 OK", none⟩ :=
  ⟨rfl, rfl, by decide⟩

/-- C5 (code bug witnessed): `load_sites` does return `[]` for a missing
registry and does raise on undecodable JSON, on non-iterable JSON scalars and
on any nonempty structure that is not a list of url-objects — but a registry
file holding the empty JSON object `{}` (or the empty string) is returned
*unchanged*, with no error and without being a list, because the validation
loop iterates zero elements. -/
theorem claim_C5 :
    load_sites RegFile.absent = .ok (JVal.jarr [])
  ∧ exceptIsOk (load_sites RegFile.badJson) = false
  ∧ exceptIsOk (load_sites (RegFile.json (JVal.jnum 42))) = false
  ∧ exceptIsOk (load_sites (RegFile.json (JVal.jarr [JVal.jnum 7]))) = false
  ∧ exceptIsOk (load_sites (RegFile.json (JVal.jobj [("a", JVal.jnum 1)]))) = false
  ∧ exceptIsOk (load_sites (RegFile.json (JVal.jstr "xy"))) = false
  ∧ load_sites (RegFile.json (JVal.jobj [])) = .ok (JVal.jobj []) :=
  ⟨rfl, rfl, rfl, rfl, rfl, rfl, rfl⟩

/-- Inversion of a successful `load_config`: all three integer parses must
have succeeded (and produced the configuration's fields). -/
theorem load_config_ok {env : EnvVars} {cfg : BotConfig}
    (h : load_config env = .ok cfg) :
    pyInt (splitHashStrip (getenvD env.check_interval "3600")).data
        = some cfg.check_interval
  ∧ parseIntListPy (splitHashStrip (getenvD env.domain_expiry_threshold "30,15,7,1"))
        = some cfg.domain_expiry_threshold
  ∧ parseIntListPy (splitHashStrip (getenvD env.ssl_expiry_threshold "30,15,7,1"))
        = some cfg.ssl_expiry_threshold := by
  simp only [load_config] at h
  repeat' split at h
  all_goals first
    | exact Except.noConfusion h
    | (injection h with h2; subst h2;
       exact ⟨by assumption, by assumption, by assumption⟩)

/-- C7 as amended: `load_config` raises whenever `CHECK_INTERVAL` fails to
parse as an integer, or whenever either threshold variable is not a
comma-separated list of integers.  (The "greater than 0" part of the original
claim is refuted by `claim_C7_counterexample`: positivity is never checked.) -/
theorem claim_C7 (env : EnvVars) :
    (pyInt (splitHashStrip (getenvD env.check_interval "3600")).data = none →
      exceptIsOk (load_config env) = false)
  ∧ (parseIntListPy (splitHashStrip (getenvD env.domain_expiry_threshold "30,15,7,1")) = none →
      exceptIsOk (load_config env) = false)
  ∧ (parseIntListPy (splitHashStrip (getenvD env.ssl_expiry_threshold "30,15,7,1")) = none →
      exceptIsOk (load_config env) = false) := by
  refine ⟨?_, ?_, ?_⟩ <;> intro h <;>
    ( cases hk : load_config env with
      | error e => rfl
      | ok cfg =>
        exfalso
        rcases load_config_ok hk with ⟨h1, h2, h3⟩
        simp_all )

/-- Counterexample to C7 as stated: with `CHECK_INTERVAL=0` (an integer that
is *not* greater than 0) and an otherwise valid environment, `load_config`
returns a configuration instead of raising. -/
theorem claim_C7_counterexample :
    load_config c7badEnv = .ok c7badCfg ∧ ¬(0 < c7badCfg.check_interval) :=
  ⟨rfl, by decide⟩

/-- Witness for C7 (amended): an environment whose `CHECK_INTERVAL` is the
non-integer `"abc"` makes `load_config` raise. -/
theorem claim_C7_witness : exceptIsOk (load_config c7wEnv) = false :=
  (claim_C7 c7wEnv).1 rfl

/-- Exact case analysis of the SSL-warning block: either nothing happens, or
(for a parseable expiry whose bucket is truthy and unnotified) exactly one
`sslWarn` is sent and the bucket appended. -/
theorem sslWarnPhase_cases (site : SiteConfigR) (sslT : List Int) (now : Int) :
    sslWarnPhase site sslT now = (site, [])
    ∨ ∃ b te, site.ssl_expires = DateVal.ok te
        ∧ get_nearest_threshold (daysBetween te now) sslT = some b
        ∧ b ≠ 0 ∧ b ∉ site.ssl_notifications
        ∧ sslWarnPhase site sslT now =
            ({ site with ssl_notifications := site.ssl_notifications ++ [b] },
             [Msg.sslWarn b (daysBetween te now)]) := by
  simp only [sslWarnPhase]
  split
  · exact Or.inl rfl
  · exact Or.inl rfl
  · rename_i te heq
    split
    · exact Or.inl rfl
    · rename_i b hn
      split
      · rename_i hb
        exact Or.inr ⟨b, te, heq, hn, hb.1, hb.2, rfl⟩
      · exact Or.inl rfl

/-- Exact case analysis of the domain-warning block, mirror of
`sslWarnPhase_cases`. -/
theorem domainWarnPhase_cases (site : SiteConfigR) (domT : List Int) (now : Int) :
    domainWarnPhase site domT now = (site, [])
    ∨ ∃ b te, site.domain_expires = DateVal.ok te
        ∧ get_nearest_threshold (daysBetween te now) domT = some b
        ∧ b ≠ 0 ∧ b ∉ site.domain_notifications
        ∧ domainWarnPhase site domT now =
            ({ site with domain_notifications := site.domain_notifications ++ [b] },
             [Msg.domainWarn b (daysBetween te now)]) := by
  simp only [domainWarnPhase]
  split
  · exact Or.inl rfl
  · exact Or.inl rfl
  · rename_i te heq
    split
    · exact Or.inl rfl
    · rename_i b hn
      split
      · rename_i hb
        exact Or.inr ⟨b, te, heq, hn, hb.1, hb.2, rfl⟩
      · exact Or.inl rfl

/-- The WHOIS block never touches the notification histories, the URL or the
SSL expiry, and its effect on `domain_expires` is `effDomainExpires`. -/
theorem domainCheckPhase_fields (site : SiteConfigR) (dom : Option (List Char))
    (dr : DomainStatusR) (now : Int) :
    (domainCheckPhase site dom dr now).url = site.url
  ∧ (domainCheckPhase site dom dr now).ssl_notifications = site.ssl_notifications
  ∧ (domainCheckPhase site dom dr now).domain_notifications = site.domain_notifications
  ∧ (domainCheckPhase site dom dr now).domain_expires = effDomainExpires site dom dr now := by
  cases hS : shouldCheckDomain site now <;> cases hT : domTruthyOf dom
    <;> cases hD : dr.success
    <;> simp [domainCheckPhase, effDomainExpires, hS, hT, hD]

/-- Looking up the key just written. -/
theorem lookup_setLS (k : String) (v : WebsiteStatus × SSLStatusR) (m : LastStatus) :
    lookupLS k (setLS k v m) = some v := by
  induction m with
  | nil => simp [lookupLS, setLS, List.find?]
  | cons hd tl ih =>
    by_cases h : hd.1 == k
    · simp [lookupLS, setLS, h, List.find?]
    · simpa [lookupLS, setLS, h, List.find?] using ih

/-- Behaviour of the incident block: an incident message is emitted iff the
status pair changed and one of the bad-state tests holds; a changed pair is
always written back to the cache; the block emits only incident messages. -/
theorem incidentPhase_spec (userId : Int) (url : String) (st : WebsiteStatus)
    (ssl : SSLStatusR) (ls : LastStatus) :
    ((incidentPhase userId url st ssl ls).1.any isIncidentMsg = true ↔
      (lookupLS (statusKey userId url) ls ≠ some (st, ssl)
        ∧ (unhealthyWebsite st || unhealthySSL ssl) = true))
  ∧ (lookupLS (statusKey userId url) ls ≠ some (st, ssl) →
      lookupLS (statusKey userId url) ((incidentPhase userId url st ssl ls).2)
        = some (st, ssl))
  ∧ (∀ m ∈ (incidentPhase userId url st ssl ls).1, isIncidentMsg m = true) := by
  simp only [incidentPhase]
  by_cases h : lookupLS (statusKey userId url) ls ≠ some (st, ssl)
  · rw [if_pos h]
    refine ⟨?_, fun _ => lookup_setLS _ _ _, ?_⟩
    · cases hw : unhealthyWebsite st <;> cases hs : unhealthySSL ssl
        <;> simp [isIncidentMsg, h, hw, hs]
    · intro m hm
      cases hw : unhealthyWebsite st <;> cases hs : unhealthySSL ssl
        <;> simp [hw, hs] at hm
        <;> (rcases hm with rfl | rfl <;> rfl)
  · rw [if_neg h]
    push_neg at h
    exact ⟨by simp [h], fun hc => absurd h hc, by simp⟩

/-- The SSL-warning block emits only `sslWarn` messages. -/
theorem sslWarnPhase_msgs_kind (site : SiteConfigR) (sslT : List Int) (now : Int) :
    ∀ m ∈ (sslWarnPhase site sslT now).2, isSslWarnMsg m = true := by
  rcases sslWarnPhase_cases site sslT now with h | ⟨b, te, _, _, _, _, h⟩ <;>
    rw [h] <;> simp [isSslWarnMsg]

/-- The domain-warning block emits only `domainWarn` messages. -/
theorem domainWarnPhase_msgs_kind (site : SiteConfigR) (domT : List Int) (now : Int) :
    ∀ m ∈ (domainWarnPhase site domT now).2, isDomainWarnMsg m = true := by
  rcases domainWarnPhase_cases site domT now with h | ⟨b, te, _, _, _, _, h⟩ <;>
    rw [h] <;> simp [isDomainWarnMsg]

/-- The SSL-warning block never touches the URL or the domain-side fields. -/
theorem sslWarnPhase_pres (site : SiteConfigR) (sslT : List Int) (now : Int) :
    (sslWarnPhase site sslT now).1.url = site.url
  ∧ (sslWarnPhase site sslT now).1.domain_notifications = site.domain_notifications
  ∧ (sslWarnPhase site sslT now).1.domain_expires = site.domain_expires
  ∧ (sslWarnPhase site sslT now).1.domain_last_checked = site.domain_last_checked := by
  rcases sslWarnPhase_cases site sslT now with h | ⟨b, te, _, _, _, _, h⟩ <;>
    rw [h] <;> exact ⟨rfl, rfl, rfl, rfl⟩

/-- The domain-warning block never touches the URL or the SSL-side fields. -/
theorem domainWarnPhase_pres (site : SiteConfigR) (domT : List Int) (now : Int) :
    (domainWarnPhase site domT now).1.url = site.url
  ∧ (domainWarnPhase site domT now).1.ssl_notifications = site.ssl_notifications
  ∧ (domainWarnPhase site domT now).1.ssl_expires = site.ssl_expires := by
  rcases domainWarnPhase_cases site domT now with h | ⟨b, te, _, _, _, _, h⟩ <;>
    rw [h] <;> exact ⟨rfl, rfl, rfl⟩

/-- The SSL notification history only ever grows within the SSL block. -/
theorem sslWarnPhase_tail (site : SiteConfigR) (sslT : List Int) (now : Int) :
    ∃ tail, (sslWarnPhase site sslT now).1.ssl_notifications
      = site.ssl_notifications ++ tail := by
  rcases sslWarnPhase_cases site sslT now with h | ⟨b, te, _, _, _, _, h⟩
  · exact ⟨[], by rw [h]; simp⟩
  · exact ⟨[b], by rw [h]⟩

/-- The domain notification history only ever grows within the domain block. -/
theorem domainWarnPhase_tail (site : SiteConfigR) (domT : List Int) (now : Int) :
    ∃ tail, (domainWarnPhase site domT now).1.domain_notifications
      = site.domain_notifications ++ tail := by
  rcases domainWarnPhase_cases site domT now with h | ⟨b, te, _, _, _, _, h⟩
  · exact ⟨[], by rw [h]; simp⟩
  · exact ⟨[b], by rw [h]⟩

/-- A cycle's message list is warn messages followed by the incident block's
messages, and its cache is the incident block's cache. -/
theorem check_site_status_decomp (userId : Int) (site : SiteConfigR)
    (sslT domT : List Int) (st : WebsiteStatus) (ssl : SSLStatusR)
    (dr : DomainStatusR) (now : Int) (ls : LastStatus) :
    ∃ m1 m2,
      (check_site_status userId site sslT domT st ssl dr now ls).msgs
        = m1 ++ m2 ++ (incidentPhase userId site.url st ssl ls).1
      ∧ (check_site_status userId site sslT domT st ssl dr now ls).lastStatus
        = (incidentPhase userId site.url st ssl ls).2
      ∧ (∀ m ∈ m1, isSslWarnMsg m = true)
      ∧ (∀ m ∈ m2, isDomainWarnMsg m = true) := by
  refine ⟨_, _, rfl, rfl, ?_, ?_⟩
  · exact sslWarnPhase_msgs_kind _ sslT now
  · exact domainWarnPhase_msgs_kind _ domT now

/-- Warn messages are not incident messages. -/
theorem warn_not_incident {m : Msg} :
    (isSslWarnMsg m = true ∨ isDomainWarnMsg m = true) → isIncidentMsg m = false := by
  cases m <;> simp [isSslWarnMsg, isDomainWarnMsg, isIncidentMsg]

/-- C3: an incident notification is sent in a cycle iff the
`(WebsiteStatus, SSLStatus)` pair differs from the cached pair for the
`(owner, url)` key AND one of the unhealthy conditions holds; whenever the
pair differs the cache entry is overwritten with the new pair; hence a cycle
whose pair equals the cached one sends no incident notification. -/
theorem claim_C3 (userId : Int) (site : SiteConfigR) (sslT domT : List Int)
    (st : WebsiteStatus) (ssl : SSLStatusR) (dr : DomainStatusR) (now : Int)
    (ls : LastStatus) :
    ((check_site_status userId site sslT domT st ssl dr now ls).msgs.any
        isIncidentMsg = true ↔
      (lookupLS (statusKey userId site.url) ls ≠ some (st, ssl)
        ∧ (unhealthyWebsite st || unhealthySSL ssl) = true))
  ∧ (lookupLS (statusKey userId site.url) ls ≠ some (st, ssl) →
      lookupLS (statusKey userId site.url)
        (check_site_status userId site sslT domT st ssl dr now ls).lastStatus
        = some (st, ssl))
  ∧ (lookupLS (statusKey userId site.url) ls = some (st, ssl) →
      (check_site_status userId site sslT domT st ssl dr now ls).msgs.any
        isIncidentMsg = false) := by
  obtain ⟨m1, m2, hm, hls, hk1, hk2⟩ :=
    check_site_status_decomp userId site sslT domT st ssl dr now ls
  obtain ⟨hiff, hupd, _⟩ := incidentPhase_spec userId site.url st ssl ls
  have hany : (check_site_status userId site sslT domT st ssl dr now ls).msgs.any
      isIncidentMsg = (incidentPhase userId site.url st ssl ls).1.any isIncidentMsg := by
    have h1 : m1.any isIncidentMsg = false := by
      rw [List.any_eq_false]
      exact fun m hmem => by simp [warn_not_incident (Or.inl (hk1 m hmem))]
    have h2 : m2.any isIncidentMsg = false := by
      rw [List.any_eq_false]
      exact fun m hmem => by simp [warn_not_incident (Or.inr (hk2 m hmem))]
    rw [hm, List.any_append, List.any_append, h1, h2]
    simp
  refine ⟨by rw [hany]; exact hiff, fun hne => by rw [hls]; exact hupd hne, fun heq => ?_⟩
  rw [hany]
  cases hval : (incidentPhase userId site.url st ssl ls).1.any isIncidentMsg with
  | false => rfl
  | true => exact absurd heq (hiff.mp hval).1

/-- Witness for C3: with an empty cache and a `503` probe the pair differs, so
the cache is written with the new pair (second clause applied at a concrete
input); and a cycle whose `503` pair is already cached sends no incident
notification (third clause applied at a concrete input). -/
theorem claim_C3_witness :
    lookupLS (statusKey 1 exUrl)
      (check_site_status 1 c2site [30, 15, 7, 1] [30, 15, 7, 1] c3st (c2ssl 25)
        c2dr 0 []).lastStatus = some (c3st, c2ssl 25)
  ∧ (check_site_status 1 c2site [30, 15, 7, 1] [30, 15, 7, 1] c3st (c2ssl 25)
        c2dr 0 c3ls).msgs.any isIncidentMsg = false :=
  ⟨(claim_C3 1 c2site [30, 15, 7, 1] [30, 15, 7, 1] c3st (c2ssl 25) c2dr 0 []).2.1
      (by decide),
   (claim_C3 1 c2site [30, 15, 7, 1] [30, 15, 7, 1] c3st (c2ssl 25) c2dr 0 c3ls).2.2
      (by decide)⟩

/-- C2: an SSL (resp. domain) expiry warning is sent only when the computed
bucket is not yet in `ssl_notifications` (resp. `domain_notifications`); a
sent warning appends its bucket to the list; and the cycle never removes
elements from either list.  Consequently, with `ssl_notifications = [30]` and
thresholds `{30,15,7,1}`, a cycle at `days_left = 25` sends no SSL warning,
and a later cycle at `days_left = 10` still computes bucket 30 and also sends
none. -/
theorem claim_C2 (userId : Int) (site : SiteConfigR) (sslT domT : List Int)
    (st : WebsiteStatus) (ssl : SSLStatusR) (dr : DomainStatusR) (now : Int)
    (ls : LastStatus) :
    (∀ b d, Msg.sslWarn b d
        ∈ (check_site_status userId site sslT domT st ssl dr now ls).msgs →
      b ∉ site.ssl_notifications
      ∧ (check_site_status userId site sslT domT st ssl dr now ls).site.ssl_notifications
          = site.ssl_notifications ++ [b])
  ∧ (∀ b d, Msg.domainWarn b d
        ∈ (check_site_status userId site sslT domT st ssl dr now ls).msgs →
      b ∉ site.domain_notifications
      ∧ (check_site_status userId site sslT domT st ssl dr now ls).site.domain_notifications
          = site.domain_notifications ++ [b])
  ∧ (∃ tail, (check_site_status userId site sslT domT st ssl dr now ls).site.ssl_notifications
        = site.ssl_notifications ++ tail)
  ∧ (∃ tail, (check_site_status userId site sslT domT st ssl dr now ls).site.domain_notifications
        = site.domain_notifications ++ tail)
  ∧ (check_site_status 1 c2site [30, 15, 7, 1] [30, 15, 7, 1] c2st (c2ssl 25)
        c2dr 0 []).msgs.all (fun m => !isSslWarnMsg m) = true
  ∧ get_nearest_threshold 10 [30, 15, 7, 1] = some 30
  ∧ (check_site_status 1 c2site [30, 15, 7, 1] [30, 15, 7, 1] c2st (c2ssl 10)
        c2dr 0 []).msgs.all (fun m => !isSslWarnMsg m) = true := by
  have hub : (check_site_status userId site sslT domT st ssl dr now ls).site.ssl_notifications
      = (sslWarnPhase (cssSite1 site ssl) sslT now).1.ssl_notifications := by
    have h1 := (domainWarnPhase_pres (cssSite3 site ssl sslT dr now) domT now).2.1
    have h2 := (domainCheckPhase_fields (sslWarnPhase (cssSite1 site ssl) sslT now).1
      (siteDomain site.url) dr now).2.1
    exact h1.trans h2
  have hd0 : (cssSite3 site ssl sslT dr now).domain_notifications
      = site.domain_notifications := by
    have h2 := (domainCheckPhase_fields (sslWarnPhase (cssSite1 site ssl) sslT now).1
      (siteDomain site.url) dr now).2.2.1
    have h3 := (sslWarnPhase_pres (cssSite1 site ssl) sslT now).2.1
    exact h2.trans h3
  refine ⟨?_, ?_, ?_, ?_, by decide, by decide, by decide⟩
  · intro b d hmem
    rcases List.mem_append.mp hmem with hmem' | hmem3
    · rcases List.mem_append.mp hmem' with hmem1 | hmem2
      · rcases sslWarnPhase_cases (cssSite1 site ssl) sslT now with h1 |
          ⟨b1, te1, he1, hn1, hb1, hm1, h1⟩
        · rw [h1] at hmem1
          simp at hmem1
        · rw [h1] at hmem1
          simp only [List.mem_singleton, Msg.sslWarn.injEq] at hmem1
          obtain ⟨rfl, rfl⟩ := hmem1
          refine ⟨hm1, ?_⟩
          rw [hub, h1]
          rfl
      · have := domainWarnPhase_msgs_kind _ domT now _ hmem2
        simp [isDomainWarnMsg] at this
    · have := (incidentPhase_spec userId site.url st ssl ls).2.2 _ hmem3
      simp [isIncidentMsg] at this
  · intro b d hmem
    rcases List.mem_append.mp hmem with hmem' | hmem3
    · rcases List.mem_append.mp hmem' with hmem1 | hmem2
      · have := sslWarnPhase_msgs_kind _ sslT now _ hmem1
        simp [isSslWarnMsg] at this
      · rcases domainWarnPhase_cases (cssSite3 site ssl sslT dr now) domT now with h2 |
          ⟨b2, te2, he2, hn2, hb2, hm2, h2⟩
        · rw [h2] at hmem2
          simp at hmem2
        · rw [h2] at hmem2
          simp only [List.mem_singleton, Msg.domainWarn.injEq] at hmem2
          obtain ⟨rfl, rfl⟩ := hmem2
          rw [hd0] at hm2
          refine ⟨hm2, ?_⟩
          show (domainWarnPhase (cssSite3 site ssl sslT dr now) domT now).1.domain_notifications
            = site.domain_notifications ++ [b]
          rw [h2]
          show (cssSite3 site ssl sslT dr now).domain_notifications ++ [b]
            = site.domain_notifications ++ [b]
          rw [hd0]
    · have := (incidentPhase_spec userId site.url st ssl ls).2.2 _ hmem3
      simp [isIncidentMsg] at this
  · obtain ⟨tail, htail⟩ := sslWarnPhase_tail (cssSite1 site ssl) sslT now
    exact ⟨tail, by rw [hub, htail]; rfl⟩
  · obtain ⟨tail, htail⟩ := domainWarnPhase_tail (cssSite3 site ssl sslT dr now) domT now
    refine ⟨tail, ?_⟩
    show (domainWarnPhase (cssSite3 site ssl sslT dr now) domT now).1.domain_notifications
      = site.domain_notifications ++ tail
    rw [htail, hd0]

/-- Witness for C2 at a concrete input: with an empty notification history and
`days_left = 25` the bucket 30 warning fires, so 30 was absent from the list
and is appended by the cycle. -/
theorem claim_C2_witness :
    (30 : Int) ∉ c2wsite.ssl_notifications
    ∧ (check_site_status 1 c2wsite [30, 15, 7, 1] [30, 15, 7, 1] c2st (c2ssl 25)
        c2dr 0 []).site.ssl_notifications = c2wsite.ssl_notifications ++ [30] :=
  (claim_C2 1 c2wsite [30, 15, 7, 1] [30, 15, 7, 1] c2st (c2ssl 25) c2dr 0 []).1
    30 25 (by decide)

theorem domainWarn_not_ssl {m : Msg} (h : isDomainWarnMsg m = true) :
    isSslWarnMsg m = false := by
  cases m <;> simp_all [isDomainWarnMsg, isSslWarnMsg]

theorem incident_not_ssl {m : Msg} (h : isIncidentMsg m = true) :
    isSslWarnMsg m = false := by
  cases m <;> simp_all [isIncidentMsg, isSslWarnMsg]

theorem sslWarn_not_domain {m : Msg} (h : isSslWarnMsg m = true) :
    isDomainWarnMsg m = false := by
  cases m <;> simp_all [isDomainWarnMsg, isSslWarnMsg]

theorem incident_not_domain {m : Msg} (h : isIncidentMsg m = true) :
    isDomainWarnMsg m = false := by
  cases m <;> simp_all [isIncidentMsg, isDomainWarnMsg]

/-- `effDomainExpires` only reads the domain bookkeeping fields. -/
theorem effDomainExpires_congr {s s' : SiteConfigR} (dom : Option (List Char))
    (dr : DomainStatusR) (now : Int)
    (h1 : s'.domain_last_checked = s.domain_last_checked)
    (h2 : s'.domain_expires = s.domain_expires) :
    effDomainExpires s' dom dr now = effDomainExpires s dom dr now := by
  simp [effDomainExpires, shouldCheckDomain, h1, h2]

/-- C10: when the computed bucket is the threshold value 0, the delivery gate
`if nearest_threshold and ...` treats it like "no alert": no SSL (resp.
domain) expiry warning of any bucket is sent and the notified list stays
unchanged — in particular 0 is never appended. -/
theorem claim_C10 (userId : Int) (site : SiteConfigR) (sslT domT : List Int)
    (st : WebsiteStatus) (ssl : SSLStatusR) (dr : DomainStatusR) (now : Int)
    (ls : LastStatus) :
    (∀ te, ssl.expires = DateVal.ok te →
      get_nearest_threshold (daysBetween te now) sslT = some 0 →
      ((check_site_status userId site sslT domT st ssl dr now ls).msgs.all
          (fun m => !isSslWarnMsg m) = true
        ∧ (check_site_status userId site sslT domT st ssl dr now ls).site.ssl_notifications
            = site.ssl_notifications))
  ∧ (∀ te, effDomainExpires site (siteDomain site.url) dr now = DateVal.ok te →
      get_nearest_threshold (daysBetween te now) domT = some 0 →
      ((check_site_status userId site sslT domT st ssl dr now ls).msgs.all
          (fun m => !isDomainWarnMsg m) = true
        ∧ (check_site_status userId site sslT domT st ssl dr now ls).site.domain_notifications
            = site.domain_notifications)) := by
  have hub : (check_site_status userId site sslT domT st ssl dr now ls).site.ssl_notifications
      = (sslWarnPhase (cssSite1 site ssl) sslT now).1.ssl_notifications :=
    ((domainWarnPhase_pres (cssSite3 site ssl sslT dr now) domT now).2.1).trans
      ((domainCheckPhase_fields (sslWarnPhase (cssSite1 site ssl) sslT now).1
        (siteDomain site.url) dr now).2.1)
  have hd0 : (cssSite3 site ssl sslT dr now).domain_notifications
      = site.domain_notifications :=
    ((domainCheckPhase_fields (sslWarnPhase (cssSite1 site ssl) sslT now).1
      (siteDomain site.url) dr now).2.2.1).trans
      ((sslWarnPhase_pres (cssSite1 site ssl) sslT now).2.1)
  have heff : (cssSite3 site ssl sslT dr now).domain_expires
      = effDomainExpires site (siteDomain site.url) dr now := by
    have h2 := (domainCheckPhase_fields (sslWarnPhase (cssSite1 site ssl) sslT now).1
      (siteDomain site.url) dr now).2.2.2
    exact h2.trans (effDomainExpires_congr _ dr now
      ((sslWarnPhase_pres (cssSite1 site ssl) sslT now).2.2.2)
      ((sslWarnPhase_pres (cssSite1 site ssl) sslT now).2.2.1))
  constructor
  · intro te hte h0
    rcases sslWarnPhase_cases (cssSite1 site ssl) sslT now with h1 |
      ⟨b1, te1, he1, hn1, hb1, hm1, h1⟩
    · constructor
      · rw [List.all_eq_true]
        intro m hmem
        rcases List.mem_append.mp hmem with hmem' | h3
        · rcases List.mem_append.mp hmem' with h1' | h2'
          · rw [h1] at h1'
            simp at h1'
          · simp [domainWarn_not_ssl (domainWarnPhase_msgs_kind _ domT now _ h2')]
        · simp [incident_not_ssl
            ((incidentPhase_spec userId site.url st ssl ls).2.2 _ h3)]
      · rw [hub, h1]
        rfl
    · exfalso
      have he1' : ssl.expires = DateVal.ok te1 := he1
      rw [hte] at he1'
      injection he1' with hte1
      subst hte1
      rw [h0] at hn1
      injection hn1 with hb
      exact hb1 hb.symm
  · intro te hte h0
    rcases domainWarnPhase_cases (cssSite3 site ssl sslT dr now) domT now with h2c |
      ⟨b2, te2, he2, hn2, hb2, hm2, h2c⟩
    · constructor
      · rw [List.all_eq_true]
        intro m hmem
        rcases List.mem_append.mp hmem with hmem' | h3
        · rcases List.mem_append.mp hmem' with h1' | h2'
          · simp [sslWarn_not_domain (sslWarnPhase_msgs_kind _ sslT now _ h1')]
          · rw [h2c] at h2'
            simp at h2'
        · simp [incident_not_domain
            ((incidentPhase_spec userId site.url st ssl ls).2.2 _ h3)]
      · show (domainWarnPhase (cssSite3 site ssl sslT dr now) domT now).1.domain_notifications
          = site.domain_notifications
        rw [h2c]
        exact hd0
    · exfalso
      rw [heff, hte] at he2
      injection he2 with hte2
      subst hte2
      rw [h0] at hn2
      injection hn2 with hb
      exact hb2 hb.symm

/-- Witness for C10: thresholds `[0]`, a certificate and a stored domain
registration both one day past expiry (bucket 0): no warning is sent and both
notified lists stay empty. -/
theorem claim_C10_witness :
    ((check_site_status 1 c10site [0] [0] c2st c10ssl c2dr 0 []).msgs.all
        (fun m => !isSslWarnMsg m) = true
      ∧ (check_site_status 1 c10site [0] [0] c2st c10ssl c2dr 0 []).site.ssl_notifications
          = c10site.ssl_notifications)
  ∧ ((check_site_status 1 c10site [0] [0] c2st c10ssl c2dr 0 []).msgs.all
        (fun m => !isDomainWarnMsg m) = true
      ∧ (check_site_status 1 c10site [0] [0] c2st c10ssl c2dr 0 []).site.domain_notifications
          = c10site.domain_notifications) :=
  ⟨(claim_C10 1 c10site [0] [0] c2st c10ssl c2dr 0 []).1 (-86400) rfl (by decide),
   (claim_C10 1 c10site [0] [0] c2st c10ssl c2dr 0 []).2 (-86400) (by decide) (by decide)⟩

theorem pyHasKey_of_lookup {k : String} {fs : List (String × JVal)} {v : JVal}
    (h : pyLookup k fs = some v) : pyHasKey k fs = true := by
  unfold pyLookup at h
  unfold pyHasKey
  cases hf : fs.find? (fun p => p.1 == k) with
  | none => rw [hf] at h; simp at h
  | some p =>
    rw [List.any_eq_true]
    have hp := List.find?_some hf
    exact ⟨p, List.mem_of_find?_eq_some hf, hp⟩

/-- A well-formed entry passes both the load-time and the save-time checks;
loading it backfills the default fields. -/
theorem processSite_wf {s : JVal} (h : wellFormedSite s = true) :
    processSite s = .ok (backfillSite s) ∧ saveCheckSite s = .ok () := by
  cases s with
  | jobj fs =>
    simp only [wellFormedSite] at h
    cases hu : pyLookup "url" fs with
    | none => rw [hu] at h; simp at h
    | some v =>
      cases v with
      | jstr u =>
        rw [hu] at h
        have hctl : hasCtlChar u = false := by simpa using h
        constructor
        · simp [processSite, backfillSite, pyHasKey_of_lookup hu, hu, hctl]
        · simp [saveCheckSite, hu, hctl]
      | jnull => rw [hu] at h; simp at h
      | jbool b => rw [hu] at h; simp at h
      | jnum n => rw [hu] at h; simp at h
      | jarr xs => rw [hu] at h; simp at h
      | jobj gs => rw [hu] at h; simp at h
  | jnull => simp [wellFormedSite] at h
  | jbool b => simp [wellFormedSite] at h
  | jnum n => simp [wellFormedSite] at h
  | jstr s => simp [wellFormedSite] at h
  | jarr xs => simp [wellFormedSite] at h

theorem processSites_wf {sites : List JVal} (h : sites.all wellFormedSite = true) :
    processSites sites = .ok (sites.map backfillSite) := by
  induction sites with
  | nil => rfl
  | cons s rest ih =>
    rw [List.all_cons, Bool.and_eq_true] at h
    simp [processSites, (processSite_wf h.1).1, ih h.2]

theorem saveCheckAll_wf {sites : List JVal} (h : sites.all wellFormedSite = true) :
    saveCheckAll sites = .ok () := by
  induction sites with
  | nil => rfl
  | cons s rest ih =>
    rw [List.all_cons, Bool.and_eq_true] at h
    simp [saveCheckAll, (processSite_wf h.1).2, ih h.2]

/-- C6: for any list of well-formed entries (objects with a string `url` free
of control characters), `save` succeeds and writes the list as-is, and
`load_sites` of the written file returns the same list with the missing
`domain_notifications` / `ssl_notifications` / `dns_a` / `dns_mx` /
`dns_last_checked` / `dns_records` fields backfilled with their empty
defaults. -/
theorem claim_C6 (sites : List JVal) (h : sites.all wellFormedSite = true) :
    save sites = .ok (RegFile.json (JVal.jarr sites))
  ∧ load_sites (RegFile.json (JVal.jarr sites))
      = .ok (JVal.jarr (sites.map backfillSite)) := by
  constructor
  · simp [save, saveCheckAll_wf h, Except.map]
  · simp [load_sites, processSites_wf h, Except.map]

/-- Witness for C6 at a concrete registry: one entry carrying only `url` and
`ssl_valid` round-trips with the six default fields appended. -/
theorem claim_C6_witness :
    save c6sites = .ok (RegFile.json (JVal.jarr c6sites))
  ∧ load_sites (RegFile.json (JVal.jarr c6sites))
      = .ok (JVal.jarr (c6sites.map backfillSite)) :=
  claim_C6 c6sites (by decide)

theorem dropWhile_head_false (p : Char → Bool) :
    ∀ (l : List Char) {a : Char} {rest : List Char},
      l.dropWhile p = a :: rest → p a = false := by
  intro l
  induction l with
  | nil => intro a rest h; simp [List.dropWhile] at h
  | cons x xs ih =>
    intro a rest h
    by_cases hx : p x
    · rw [List.dropWhile_cons_of_pos hx] at h
      exact ih h
    · rw [List.dropWhile_cons_of_neg hx] at h
      obtain ⟨rfl, rfl⟩ := List.cons.injEq .. ▸ h
      exact eq_false_of_ne_true hx

theorem drop_len_succ_append (l1 l2 : List Char) (a : Char) :
    (l1 ++ a :: l2).drop (l1.length + 1) = l2 := by
  rw [show l1 ++ a :: l2 = (l1 ++ [a]) ++ l2 by simp]
  apply List.drop_left'
  simp

/-- When a scheme was recognized, the preprocessed URL decomposes as
`pre ++ ':' :: rest` with the scheme the lowercased `pre`. -/
theorem schemeSplit_nonempty {cs : List Char} (h : (schemeSplit cs).1 ≠ []) :
    ∃ pre, cs = pre ++ ':' :: (schemeSplit cs).2
      ∧ (schemeSplit cs).1 = pre.map Char.toLower
      ∧ pre ≠ [] := by
  simp only [schemeSplit] at h ⊢
  split
  · rename_i hcond
    obtain ⟨h1, h2, h3⟩ := hcond
    refine ⟨cs.takeWhile notColon, ?_, rfl, h2⟩
    cases hd : cs.dropWhile notColon with
    | nil =>
      exfalso
      have heq : cs.takeWhile notColon = cs := by
        have happ := List.takeWhile_append_dropWhile notColon cs
        rw [hd, List.append_nil] at happ
        exact happ
      rw [heq] at h1
      exact lt_irrefl _ h1
    | cons a rest =>
      have ha : notColon a = false := dropWhile_head_false notColon cs hd
      have hcol : a = ':' := by
        unfold notColon at ha
        simpa using ha
      subst hcol
      have happ := List.takeWhile_append_dropWhile notColon cs
      rw [hd] at happ
      have hdrop : cs.drop ((cs.takeWhile notColon).length + 1) = rest := by
        calc cs.drop ((cs.takeWhile notColon).length + 1)
            = (cs.takeWhile notColon ++ ':' :: rest).drop
                ((cs.takeWhile notColon).length + 1) := by rw [happ]
          _ = rest := drop_len_succ_append _ _ _
      rw [hdrop]
      exact happ.symm
  · rename_i hncond
    rw [if_neg hncond] at h
    exact absurd rfl h

/-- Whatever `schemeSplit` leaves is made of characters of its input. -/
theorem schemeSplit_snd_subset (cs : List Char) :
    ∀ c ∈ (schemeSplit cs).2, c ∈ cs := by
  simp only [schemeSplit]
  split
  · intro c hc
    exact List.drop_subset _ _ hc
  · intro c hc
    exact hc

/-- Characters surviving URL preprocessing come from the input and are none of
tab/CR/LF. -/
theorem mem_preprocess {c : Char} {cs : List Char} (h : c ∈ preprocessUrl cs) :
    c ∈ cs ∧ c ≠ '\t' ∧ c ≠ '\x0d' ∧ c ≠ '\n' := by
  unfold preprocessUrl removeUnsafeBytes at h
  have h1 := List.mem_filter.mp h
  have h2 := List.dropWhile_subset _ h1.1
  have h3 := h1.2
  simp only [Bool.and_eq_true, decide_eq_true_eq] at h3
  exact ⟨h2, h3.1.1, h3.1.2, h3.2⟩

theorem preprocess_length (cs : List Char) :
    (preprocessUrl cs).length ≤ cs.length := by
  unfold preprocessUrl removeUnsafeBytes
  calc ((cs.dropWhile isC0OrSpace).filter _).length
      ≤ (cs.dropWhile isC0OrSpace).length := List.length_filter_le _ _
    _ ≤ cs.length := (List.dropWhile_sublist isC0OrSpace).length_le

/-- Inversion of a successful `urlsplit` with nonempty netloc: the remainder
after the scheme starts with `//`, the netloc is the maximal run before a
`/?#`, and it passed the bracket sanity check. -/
theorem urlsplitM_ok_inversion {cs : List Char} {sr : SplitResult}
    (h : urlsplitM cs = .ok sr) (hn : sr.netloc ≠ []) :
    ∃ r2,
      (schemeSplit (preprocessUrl cs)).2 = '/' :: '/' :: r2
      ∧ sr.scheme = (schemeSplit (preprocessUrl cs)).1
      ∧ sr.netloc = r2.takeWhile (fun c => !isNetlocEnd c)
      ∧ bracketMismatch sr.netloc = false := by
  simp only [urlsplitM] at h
  split at h
  · rename_i r2 heq
    split at h
    · exact Except.noConfusion h
    · rename_i hbr
      injection h with h'
      subst h'
      exact ⟨r2, heq, rfl, rfl, by simpa using hbr⟩
  · injection h with h'
    subst h'
    exact absurd rfl hn

/-- Re-parsing a normalized URL `scheme://netloc` (with an http(s) scheme and
a clean, nonempty netloc) recovers exactly the scheme and the netloc and
empty path/query/fragment. -/
theorem urlsplitM_reparse {s nl : List Char}
    (hs : s = "http".data ∨ s = "https".data)
    (hend : ∀ c ∈ nl, isNetlocEnd c = false)
    (hclean : ∀ c ∈ nl, c ≠ '\t' ∧ c ≠ '\x0d' ∧ c ≠ '\n')
    (hbr : bracketMismatch nl = false) :
    urlsplitM (s ++ "://".data ++ nl) = .ok ⟨s, nl, [], [], []⟩ := by
  have hfnl : removeUnsafeBytes nl = nl := by
    unfold removeUnsafeBytes
    rw [List.filter_eq_self]
    intro a ha
    obtain ⟨ha1, ha2, ha3⟩ := hclean a ha
    simp [ha1, ha2, ha3]
  have htw : nl.takeWhile (fun c => !isNetlocEnd c) = nl := by
    rw [List.takeWhile_eq_self_iff]
    intro x hx
    simp [hend x hx]
  have hdw : nl.dropWhile (fun c => !isNetlocEnd c) = [] := by
    rw [List.dropWhile_eq_nil_iff]
    intro x hx
    simp [hend x hx]
  rcases hs with rfl | rfl
  · have hpre : preprocessUrl ("http".data ++ "://".data ++ nl)
        = "http".data ++ "://".data ++ nl := by
      unfold preprocessUrl
      rw [show ("http".data ++ "://".data ++ nl).dropWhile isC0OrSpace
          = "http".data ++ "://".data ++ nl from rfl]
      unfold removeUnsafeBytes
      rw [List.filter_append, List.filter_append]
      rw [show ("http".data.filter fun c => c ≠ '\t' && c ≠ '\x0d' && c ≠ '\n')
          = "http".data from rfl]
      rw [show ("://".data.filter fun c => c ≠ '\t' && c ≠ '\x0d' && c ≠ '\n')
          = "://".data from rfl]
      rw [show nl.filter (fun c => c ≠ '\t' && c ≠ '\x0d' && c ≠ '\n') = nl from hfnl]
    have hss : schemeSplit ("http".data ++ "://".data ++ nl)
        = ("http".data, '/' :: '/' :: nl) := by
      simp only [schemeSplit]
      rw [show ("http".data ++ "://".data ++ nl).takeWhile notColon = "http".data from rfl]
      rw [if_pos ?side]
      case side =>
        refine ⟨?_, by simp, by simp [isSchemeChar]⟩
        have h4 : ("http".data).length = 4 := rfl
        have h3 : ("://".data).length = 3 := rfl
        rw [List.length_append, List.length_append, h4, h3]
        omega
      rw [show ("http".data.length + 1) = 5 from rfl]
      rw [show ("http".data ++ "://".data ++ nl).drop 5 = '/' :: '/' :: nl from rfl]
      rfl
    simp only [urlsplitM, hpre, hss, htw, hdw, hbr]
    simp [splitFirst]
  · have hpre : preprocessUrl ("https".data ++ "://".data ++ nl)
        = "https".data ++ "://".data ++ nl := by
      unfold preprocessUrl
      rw [show ("https".data ++ "://".data ++ nl).dropWhile isC0OrSpace
          = "https".data ++ "://".data ++ nl from rfl]
      unfold removeUnsafeBytes
      rw [List.filter_append, List.filter_append]
      rw [show ("https".data.filter fun c => c ≠ '\t' && c ≠ '\x0d' && c ≠ '\n')
          = "https".data from rfl]
      rw [show ("://".data.filter fun c => c ≠ '\t' && c ≠ '\x0d' && c ≠ '\n')
          = "://".data from rfl]
      rw [show nl.filter (fun c => c ≠ '\t' && c ≠ '\x0d' && c ≠ '\n') = nl from hfnl]
    have hss : schemeSplit ("https".data ++ "://".data ++ nl)
        = ("https".data, '/' :: '/' :: nl) := by
      simp only [schemeSplit]
      rw [show ("https".data ++ "://".data ++ nl).takeWhile notColon = "https".data from rfl]
      rw [if_pos ?side]
      case side =>
        refine ⟨?_, by simp, by simp [isSchemeChar]⟩
        have h5 : ("https".data).length = 5 := rfl
        have h3 : ("://".data).length = 3 := rfl
        rw [List.length_append, List.length_append, h5, h3]
        omega
      rw [show ("https".data.length + 1) = 6 from rfl]
      rw [show ("https".data ++ "://".data ++ nl).drop 6 = '/' :: '/' :: nl from rfl]
      rfl
    simp only [urlsplitM, hpre, hss, htw, hdw, hbr]
    simp [splitFirst]

theorem mkInvalid_not_valid {e : String} {r : URLValidationResult}
    (h : Except.ok (ε := String) (mkInvalid e) = .ok r) : r.valid = false := by
  injection h with h'
  subst h'
  rfl

/-- Inversion of a successful validation: every check of `validate_url`
passed, and the result is the normalized `scheme://netloc`. -/
theorem validate_url_valid_inversion {u : String} {r : URLValidationResult}
    (h : validate_url u = .ok r) (hv : r.valid = true) :
    ∃ sr p, urlsplitM u.data = .ok sr
      ∧ u.data.length ≤ 300
      ∧ (sr.scheme = "http".data ∨ sr.scheme = "https".data)
      ∧ sr.netloc ≠ []
      ∧ pyPort sr.netloc = .ok p
      ∧ truthyPort p = false
      ∧ idnaRegexOk sr.netloc = true
      ∧ (is_local_or_private_address sr.netloc).1 = false
      ∧ localCheckList sr.netloc = false
      ∧ sr.netloc.any (fun c => c = '<' || c = '>' || c = ';') = false
      ∧ r = ⟨true, none, some (String.mk (sr.scheme ++ "://".data ++ sr.netloc))⟩ := by
  simp only [validate_url, validate_parsed] at h
  split at h
  · simp [mkInvalid_not_valid h] at hv
  rename_i hlen
  split at h
  · simp [mkInvalid_not_valid h] at hv
  rename_i hctl
  split at h
  · simp [mkInvalid_not_valid h] at hv
  rename_i sr hsr
  split at h
  · simp [mkInvalid_not_valid h] at hv
  rename_i hscheme
  split at h
  · simp [mkInvalid_not_valid h] at hv
  rename_i hnetloc
  split at h
  · simp [mkInvalid_not_valid h] at hv
  rename_i hpqf
  split at h
  · exact Except.noConfusion h
  rename_i p hp
  split at h
  · simp [mkInvalid_not_valid h] at hv
  rename_i hport
  split at h
  · simp [mkInvalid_not_valid h] at hv
  rename_i hidna
  split at h
  · simp [mkInvalid_not_valid h] at hv
  rename_i hlocal
  split at h
  · simp [mkInvalid_not_valid h] at hv
  rename_i hlist
  split at h
  · simp [mkInvalid_not_valid h] at hv
  rename_i hinj
  injection h with h2
  subst h2
  refine ⟨sr, p, hsr, by omega, not_not.mp hscheme, hnetloc, hp, ?_, ?_, ?_, ?_, ?_, rfl⟩
  · simpa using hport
  · simpa using hidna
  · simpa using hlocal
  · simpa using hlist
  · simpa using hinj

/-- Forward run of `validate_url` on a normalized `scheme://netloc` whose
netloc passes every netloc-level check: validation succeeds and returns the
same string. -/
theorem validate_url_normalized {s nlc : List Char} {p : Option Int}
    (hs : s = "http".data ∨ s = "https".data)
    (hlenB : s.length + 3 + nlc.length ≤ 300)
    (hnl : nlc ≠ [])
    (hend : ∀ c ∈ nlc, isNetlocEnd c = false)
    (hclean : ∀ c ∈ nlc, c ≠ '\t' ∧ c ≠ '\x0d' ∧ c ≠ '\n')
    (hbr : bracketMismatch nlc = false)
    (hp : pyPort nlc = .ok p)
    (hpt : truthyPort p = false)
    (hidna : idnaRegexOk nlc = true)
    (hloc : (is_local_or_private_address nlc).1 = false)
    (hlist : localCheckList nlc = false)
    (hinj : nlc.any (fun c => c = '<' || c = '>' || c = ';') = false) :
    validate_url (String.mk (s ++ "://".data ++ nlc))
      = .ok ⟨true, none, some (String.mk (s ++ "://".data ++ nlc))⟩ := by
  have hdata : (String.mk (s ++ "://".data ++ nlc)).data = s ++ "://".data ++ nlc := rfl
  have hctlm : ∀ c ∈ s ++ "://".data ++ nlc,
      (c = '\n' || c = '\x0d' || c = '\t') = false := by
    have hh : ∀ c ∈ "http".data, (c = '\n' || c = '\x0d' || c = '\t') = false := by decide
    have hh2 : ∀ c ∈ "https".data, (c = '\n' || c = '\x0d' || c = '\t') = false := by decide
    have hsep : ∀ c ∈ "://".data, (c = '\n' || c = '\x0d' || c = '\t') = false := by decide
    intro c hc
    rcases List.mem_append.mp hc with hc1 | hc4
    · rcases List.mem_append.mp hc1 with hc2 | hc3
      · rcases hs with h' | h'
        · rw [h'] at hc2; exact hh c hc2
        · rw [h'] at hc2; exact hh2 c hc2
      · exact hsep c hc3
    · obtain ⟨h1, h2, h3⟩ := hclean c hc4
      simp [h1, h2, h3]
  have hreparse := urlsplitM_reparse hs hend hclean hbr
  have hsep3 : ("://".data : List Char).length = 3 := rfl
  have hstep : validate_url (String.mk (s ++ "://".data ++ nlc))
      = validate_parsed ⟨s, nlc, [], [], []⟩ := by
    simp only [validate_url, hdata, hreparse]
    rw [if_neg ?len, if_neg ?ctl]
    case len =>
      simp [List.length_append]
      omega
    case ctl =>
      rw [List.any_eq_true]
      rintro ⟨c, hc, hcp⟩
      rw [hctlm c hc] at hcp
      exact Bool.noConfusion hcp
  rw [hstep]
  simp only [validate_parsed]
  rw [if_neg (not_not_intro hs)]
  rw [if_neg (by simpa using hnl)]
  rw [if_neg (by simp [paramsSplit])]
  rw [hp]
  simp [hpt, hidna, hloc, hlist, hinj]

/-- C8: `validate_url` is idempotent on its own output: a successful
validation of `u` with normalized URL `n` revalidates `n` successfully to the
same `n`. -/
theorem claim_C8 (u n : String)
    (h : validate_url u = .ok ⟨true, none, some n⟩) :
    validate_url n = .ok ⟨true, none, some n⟩ := by
  obtain ⟨sr, p, hsr, hlen, hsch, hnl, hp, hpt, hidna, hloc, hlist, hinj, hr⟩ :=
    validate_url_valid_inversion h rfl
  have hn : n = String.mk (sr.scheme ++ "://".data ++ sr.netloc) := by
    have h3 := congrArg URLValidationResult.normalized_url hr
    simpa using h3
  subst hn
  obtain ⟨r2, hrest, hscheq, hnleq, hbr⟩ := urlsplitM_ok_inversion hsr hnl
  have hend : ∀ c ∈ sr.netloc, isNetlocEnd c = false := by
    intro c hc
    rw [hnleq] at hc
    have := List.mem_takeWhile_imp hc
    simpa using this
  have hsub : ∀ c ∈ sr.netloc, c ∈ preprocessUrl u.data := by
    intro c hc
    rw [hnleq] at hc
    have h2 := List.takeWhile_subset _ hc
    have h3 : c ∈ (schemeSplit (preprocessUrl u.data)).2 := by
      rw [hrest]
      exact List.mem_cons_of_mem _ (List.mem_cons_of_mem _ h2)
    exact schemeSplit_snd_subset _ c h3
  have hclean : ∀ c ∈ sr.netloc, c ≠ '\t' ∧ c ≠ '\x0d' ∧ c ≠ '\n' := by
    intro c hc
    obtain ⟨_, h1, h2, h3⟩ := mem_preprocess (hsub c hc)
    exact ⟨h1, h2, h3⟩
  have hsne : sr.scheme ≠ [] := by
    rcases hsch with h' | h' <;> rw [h'] <;> simp
  have hssne : (schemeSplit (preprocessUrl u.data)).1 ≠ [] := by
    rw [← hscheq]
    exact hsne
  obtain ⟨pre, hdecomp, hpre_eq, hpre_ne⟩ := schemeSplit_nonempty hssne
  have e1 : (preprocessUrl u.data).length = pre.length + 3 + r2.length := by
    rw [hdecomp, hrest]
    simp only [List.length_append, List.length_cons]
    omega
  have e2 : sr.scheme.length = pre.length := by
    rw [hscheq, hpre_eq]
    simp
  have e3 : sr.netloc.length ≤ r2.length := by
    rw [hnleq]
    exact (List.takeWhile_sublist _).length_le
  have e4 : (preprocessUrl u.data).length ≤ u.data.length := preprocess_length _
  have hlenB : sr.scheme.length + 3 + sr.netloc.length ≤ 300 := by
    rw [e2]
    omega
  exact validate_url_normalized hsch hlenB hnl hend hclean hbr hp hpt hidna hloc
    hlist hinj

/-- Witness for C8: validating `https://example.com/` yields
`https://example.com`, whose revalidation returns itself. -/
theorem claim_C8_witness :
    validate_url "https://example.com"
      = .ok ⟨true, none, some "https://example.com"⟩ :=
  claim_C8 "https://example.com/" "https://example.com" rfl

/-- C9: whenever the parsed domain of a URL is a loopback/private IP literal
or one of the literal local hostnames, `validate_url` reports it invalid. -/
theorem claim_C9 (u : String) (r : URLValidationResult) (sr : SplitResult)
    (hparse : urlsplitM u.data = .ok sr)
    (hl : (is_local_or_private_address sr.netloc).1 = true
          ∨ localCheckList sr.netloc = true)
    (h : validate_url u = .ok r) :
    r.valid = false := by
  cases hval : r.valid with
  | false => rfl
  | true =>
    exfalso
    obtain ⟨sr', p, hsr', _, _, _, _, _, _, hloc, hlist, _, _⟩ :=
      validate_url_valid_inversion h hval
    have hsrr : sr' = sr := by
      rw [hparse] at hsr'
      injection hsr' with h2
      exact h2.symm
    subst hsrr
    rcases hl with h1 | h1
    · rw [hloc] at h1
      exact Bool.noConfusion h1
    · rw [hlist] at h1
      exact Bool.noConfusion h1

/-- Witness for C9: `http://127.0.0.1` parses with netloc `127.0.0.1`, a
loopback address, and validation indeed reports it invalid. -/
theorem claim_C9_witness : c9res.valid = false :=
  claim_C9 "http://127.0.0.1" c9res c9sr rfl (Or.inl (by decide)) rfl

end SiteBot
